import Mathlib

/-!
Verification development for the nest control plane (apps/manager).

The Python sources are shallowly embedded: pure computations become Lean
functions over exact rationals and strings; the pydal store becomes an
explicit record of tables threaded through each operation; calls into the
Kubernetes client, the resource connectors and the CA manager are
parameterised by environments describing the outcome of each call, and the
calls themselves are recorded in traces.  Python floats are modelled as
exact rationals; every threshold comparison appearing in the sources is
exact at the values the claims mention.
-/

namespace Nest

deriving instance DecidableEq for Except

/-- Python numeric value: an int or a float.  Floats are modelled as exact
rationals; the comparisons and the concrete values in the claims are exact
under this embedding. -/
inductive PyNum where
  | intVal (n : ℤ)
  | floatVal (q : ℚ)
deriving DecidableEq, Repr

def PyNum.toRat : PyNum → ℚ
  | .intVal n => (n : ℚ)
  | .floatVal q => q

/-- Decimal digits of a fraction rem/den with 0 ≤ rem < den, fuel-bounded,
stopping when the remainder is zero (Python repr prints finite decimals
exactly). -/
def fracDigits : Nat → Nat → Nat → String
  | 0, _, _ => ""
  | k + 1, rem, den =>
    if rem = 0 then ""
    else
      let rem10 := rem * 10
      toString (rem10 / den) ++ fracDigits k (rem10 % den) den

/-- Python repr of a float value, computed on the reduced
numerator/denominator.  On values with a finite decimal expansion (all
values the claims evaluate) this agrees with Python: an integral float
renders with a trailing ".0". -/
def pyFloatStr (q : ℚ) : String :=
  let sgn := if q.num < 0 then "-" else ""
  let n := q.num.natAbs
  let ip := n / q.den
  let rem := n % q.den
  if rem = 0 then sgn ++ toString ip ++ ".0"
  else sgn ++ toString ip ++ "." ++ fracDigits 17 rem q.den

/-- Python str() of an int or a float, as used inside f-strings. -/
def pyNumStr : PyNum → String
  | .intVal n => toString n
  | .floatVal q => pyFloatStr q

/-- Python fixed-point formatting with k fractional digits, on nonnegative
values (used by the ":.1f" and ":.2f" factor strings): the rounded value
floor(q * 10^k + 1/2) rendered with k fractional digits.  Rounds to
nearest, half away from zero; no claim depends on a tie case. -/
def formatFixed (k : Nat) (q : ℚ) : String :=
  let den := q.den
  let scaled : Nat := (q.num.natAbs * 10 ^ k * 2 + den) / (2 * den)
  let ip := scaled / 10 ^ k
  let fp := scaled % 10 ^ k
  let fpStr := toString fp
  let pad := String.mk (List.replicate (k - fpStr.length) '0')
  if k = 0 then toString ip else toString ip ++ "." ++ pad ++ fpStr

/-- Value stored under the "connections" key of a metrics dict: either a
dict with optional "active" and "total" entries, or a non-dict value
(both evaluators guard with isinstance(conn_info, dict)). -/
inductive ConnVal where
  | dict (active : Option PyNum) (total : Option PyNum)
  | nonDict
deriving DecidableEq, Repr

/-- Value stored under the "temp_files" key: a dict with an optional
"size_bytes" entry, or a non-dict value. -/
inductive TempVal where
  | dict (size_bytes : Option PyNum)
  | nonDict
deriving DecidableEq, Repr

/-- A metrics dict, restricted to the keys the two risk evaluators read.
Absent keys are none.  The "replication_lag_seconds" key may be present
with value None (some none), which the evaluator skips. -/
structure Metrics where
  disk_usage_percent : Option PyNum
  memory_usage_percent : Option PyNum
  memory_percent : Option PyNum
  connections : Option ConnVal
  temp_files : Option TempVal
  replication_lag_seconds : Option (Option PyNum)
  cpu_percent : Option PyNum
deriving DecidableEq, Repr

def Metrics.empty : Metrics := ⟨none, none, none, none, none, none, none⟩

namespace ExternalOpsController

/-- Disk-usage rule of ExternalOpsController._calculate_risk_level, acting
on the (max_risk, risk_factors) accumulator. -/
def stepDisk (m : Metrics) (st : String × List String) : String × List String :=
  match m.disk_usage_percent with
  | none => st
  | some v =>
    if 95 < v.toRat then
      ("critical", st.2 ++ ["Disk usage critical: " ++ pyNumStr v ++ "%"])
    else if 85 < v.toRat then
      (if st.1 ≠ "critical" then "high" else st.1,
       st.2 ++ ["Disk usage high: " ++ pyNumStr v ++ "%"])
    else st

/-- Memory-usage rule (key "memory_usage_percent"). -/
def stepMem (m : Metrics) (st : String × List String) : String × List String :=
  match m.memory_usage_percent with
  | none => st
  | some v =>
    if 90 < v.toRat then
      (if st.1 ≠ "critical" ∧ st.1 ≠ "high" then "high" else st.1,
       st.2 ++ ["Memory usage high: " ++ pyNumStr v ++ "%"])
    else st

/-- Connection-saturation rule.  Python defaults: active 0, total 1. -/
def stepConn (m : Metrics) (st : String × List String) : String × List String :=
  match m.connections with
  | none => st
  | some .nonDict => st
  | some (.dict act tot) =>
    let active := (act.getD (PyNum.intVal 0)).toRat
    let total := (tot.getD (PyNum.intVal 1)).toRat
    if 0 < total then
      let saturation := active / total * 100
      if 80 < saturation then
        (if st.1 = "low" then "medium" else st.1,
         st.2 ++ ["Connection saturation: " ++ pyFloatStr saturation ++ "%"])
      else st
    else st

/-- Temp-space rule (key "temp_files", threshold 1 GiB). -/
def stepTemp (m : Metrics) (st : String × List String) : String × List String :=
  match m.temp_files with
  | none => st
  | some .nonDict => st
  | some (.dict sz) =>
    let temp_size := (sz.getD (PyNum.intVal 0)).toRat
    if 1073741824 < temp_size then
      (if st.1 = "low" then "medium" else st.1,
       st.2 ++ ["Temporary space usage: " ++ formatFixed 2 (temp_size / 1073741824) ++ "GB"])
    else st

/-- Replication-lag rule (skips a key present with value None). -/
def stepRepl (m : Metrics) (st : String × List String) : String × List String :=
  match m.replication_lag_seconds with
  | none => st
  | some none => st
  | some (some lag) =>
    if 3600 < lag.toRat then
      (if st.1 = "low" then "medium" else st.1,
       st.2 ++ ["Replication lag: " ++ pyNumStr lag ++ "s"])
    else st

/-- Shallow embedding of ExternalOpsController._calculate_risk_level.  The
resource_type argument is unused, as in the source.  Returns
(max_risk, risk_factors). -/
def calculate_risk_level (metrics : Metrics) (_resource_type : String) :
    String × List String :=
  stepRepl metrics (stepTemp metrics (stepConn metrics
    (stepMem metrics (stepDisk metrics ("low", [])))))

end ExternalOpsController

namespace StatsCollector

/-- RiskFactors dataclass of the stats collector. -/
structure RiskFactors where
  disk_usage_percent : Option ℚ
  memory_percent : Option ℚ
  connection_saturation : Option ℚ
  cpu_percent : Option ℚ
  factors : List String
deriving DecidableEq, Repr

def RiskFactors.empty : RiskFactors := ⟨none, none, none, none, []⟩

/-- Disk-usage rule of StatsCollector.calculate_risk_level. -/
def stepDisk (m : Metrics) (st : String × RiskFactors) : String × RiskFactors :=
  match m.disk_usage_percent with
  | none => st
  | some v =>
    let rf := { st.2 with disk_usage_percent := some v.toRat }
    if 95 < v.toRat then
      ("critical", { rf with factors := rf.factors ++ ["Disk usage critical (>95%)"] })
    else if 85 < v.toRat then
      ("high", { rf with factors := rf.factors ++ ["Disk usage high (>85%)"] })
    else (st.1, rf)

/-- Memory rule of the stats collector (key "memory_percent"). -/
def stepMem (m : Metrics) (st : String × RiskFactors) : String × RiskFactors :=
  match m.memory_percent with
  | none => st
  | some v =>
    let rf := { st.2 with memory_percent := some v.toRat }
    if 90 < v.toRat then
      (if st.1 ≠ "critical" then "high" else st.1,
       { rf with factors := rf.factors ++ ["Memory usage high (>90%)"] })
    else if 85 < v.toRat then
      (if st.1 ≠ "critical" ∧ st.1 ≠ "high" then "medium" else st.1,
       { rf with factors := rf.factors ++ ["Memory usage moderate (>85%)"] })
    else (st.1, rf)

/-- Connection-saturation rule.  Python defaults here: active 0, total 0
(an absent "connections" key defaults to an empty dict, whose total is 0,
so the rule is skipped). -/
def stepConn (m : Metrics) (st : String × RiskFactors) : String × RiskFactors :=
  match m.connections with
  | none => st
  | some .nonDict => st
  | some (.dict act tot) =>
    let total := (tot.getD (PyNum.intVal 0)).toRat
    let active := (act.getD (PyNum.intVal 0)).toRat
    if 0 < total then
      let saturation := active / total * 100
      let rf := { st.2 with connection_saturation := some saturation }
      if 80 < saturation then
        (if st.1 ≠ "critical" ∧ st.1 ≠ "high" then "medium" else st.1,
         { rf with factors := rf.factors ++
           ["Connection saturation high (" ++ formatFixed 1 saturation ++ "%)"] })
      else (st.1, rf)
    else st

/-- CPU rule of the stats collector (absent from the external-ops
evaluator). -/
def stepCpu (m : Metrics) (st : String × RiskFactors) : String × RiskFactors :=
  match m.cpu_percent with
  | none => st
  | some v =>
    let rf := { st.2 with cpu_percent := some v.toRat }
    if 85 < v.toRat then
      (if st.1 ≠ "critical" ∧ st.1 ≠ "high" then "medium" else st.1,
       { rf with factors := rf.factors ++
         ["CPU usage high (" ++ formatFixed 1 v.toRat ++ "%)"] })
    else (st.1, rf)

/-- Shallow embedding of StatsCollector.calculate_risk_level.  Returns
(risk_level, risk_factors). -/
def calculate_risk_level (metrics : Metrics) : String × RiskFactors :=
  stepCpu metrics (stepConn metrics (stepMem metrics
    (stepDisk metrics ("low", RiskFactors.empty))))

/-- Raw connector stats for a storage (Ceph/SAN) resource, restricted to
the keys the storage branch of _normalize_external_metrics reads. -/
structure StorageStats where
  used_bytes : Option PyNum
  available_bytes : Option PyNum
  total_bytes : Option PyNum
deriving DecidableEq, Repr

/-- Normalized storage metrics produced by _normalize_external_metrics for
resource types ceph and san. -/
structure NormalizedStorage where
  used_bytes : PyNum
  available_bytes : PyNum
  total_bytes : PyNum
  disk_usage_percent : Option PyNum
deriving DecidableEq, Repr

/-- Shallow embedding of the storage branch of
StatsCollector._normalize_external_metrics: the three byte counters are
copied with default 0, and disk_usage_percent = used/total*100 (a Python
float, from true division) is derived when total_bytes is positive. -/
def normalize_storage_metrics (connector_stats : StorageStats) : NormalizedStorage :=
  let used := connector_stats.used_bytes.getD (PyNum.intVal 0)
  let avail := connector_stats.available_bytes.getD (PyNum.intVal 0)
  let total := connector_stats.total_bytes.getD (PyNum.intVal 0)
  { used_bytes := used
    available_bytes := avail
    total_bytes := total
    disk_usage_percent :=
      if 0 < total.toRat then some (PyNum.floatVal (used.toRat / total.toRat * 100))
      else none }

/-- View of the normalized storage metrics as an input to the risk
evaluators (the byte counters are keys neither evaluator reads). -/
def NormalizedStorage.toMetrics (n : NormalizedStorage) : Metrics :=
  { Metrics.empty with disk_usage_percent := n.disk_usage_percent }

end StatsCollector

/-- Numeric severity of a risk level, matching the export map of
StatsCollector.export_prometheus_metrics (low 0, medium 1, high 2,
critical 3; anything else defaults to 0). -/
def riskRank : String → Nat
  | "low" => 0
  | "medium" => 1
  | "high" => 2
  | "critical" => 3
  | _ => 0

/-- The four level strings either evaluator can produce. -/
def IsLevel (s : String) : Prop :=
  s = "low" ∨ s = "medium" ∨ s = "high" ∨ s = "critical"

instance (s : String) : Decidable (IsLevel s) := by
  unfold IsLevel; infer_instance

/-- Severity contributed by the disk-usage rule of the external-ops
evaluator (0 when the rule does not fire). -/
def extSevDisk (m : Metrics) : Nat :=
  match m.disk_usage_percent with
  | none => 0
  | some v => if 95 < v.toRat then 3 else if 85 < v.toRat then 2 else 0

/-- Severity contributed by the memory rule of the external-ops
evaluator. -/
def extSevMem (m : Metrics) : Nat :=
  match m.memory_usage_percent with
  | none => 0
  | some v => if 90 < v.toRat then 2 else 0

/-- Severity contributed by the connection-saturation rule of the
external-ops evaluator (Python defaults: active 0, total 1). -/
def extSevConn (m : Metrics) : Nat :=
  match m.connections with
  | none => 0
  | some .nonDict => 0
  | some (.dict act tot) =>
    let active := (act.getD (PyNum.intVal 0)).toRat
    let total := (tot.getD (PyNum.intVal 1)).toRat
    if 0 < total then (if 80 < active / total * 100 then 1 else 0) else 0

/-- Severity contributed by the temp-space rule of the external-ops
evaluator. -/
def extSevTemp (m : Metrics) : Nat :=
  match m.temp_files with
  | none => 0
  | some .nonDict => 0
  | some (.dict sz) =>
    if 1073741824 < (sz.getD (PyNum.intVal 0)).toRat then 1 else 0

/-- Severity contributed by the replication-lag rule of the external-ops
evaluator. -/
def extSevRepl (m : Metrics) : Nat :=
  match m.replication_lag_seconds with
  | none => 0
  | some none => 0
  | some (some lag) => if 3600 < lag.toRat then 1 else 0

/-- Severity contributed by the disk-usage rule of the stats-collector
evaluator. -/
def statsSevDisk (m : Metrics) : Nat :=
  match m.disk_usage_percent with
  | none => 0
  | some v => if 95 < v.toRat then 3 else if 85 < v.toRat then 2 else 0

/-- Severity contributed by the memory_percent rule of the stats-collector
evaluator. -/
def statsSevMem (m : Metrics) : Nat :=
  match m.memory_percent with
  | none => 0
  | some v => if 90 < v.toRat then 2 else if 85 < v.toRat then 1 else 0

/-- Severity contributed by the connection-saturation rule of the
stats-collector evaluator (Python defaults: active 0, total 0). -/
def statsSevConn (m : Metrics) : Nat :=
  match m.connections with
  | none => 0
  | some .nonDict => 0
  | some (.dict act tot) =>
    let total := (tot.getD (PyNum.intVal 0)).toRat
    let active := (act.getD (PyNum.intVal 0)).toRat
    if 0 < total then (if 80 < active / total * 100 then 1 else 0) else 0

/-- Severity contributed by the cpu_percent rule of the stats-collector
evaluator. -/
def statsSevCpu (m : Metrics) : Nat :=
  match m.cpu_percent with
  | none => 0
  | some v => if 85 < v.toRat then 1 else 0

/-- One observation axis of a metrics map: the keys the two risk
evaluators read. -/
inductive Obs where
  | disk | memUsage | memPercent | conns | temp | repl | cpu
deriving DecidableEq, Repr

/-- Two metrics maps differ at most in the single observation named by o:
all other keys carry equal values. -/
def differOnlyAt (o : Obs) (m1 m2 : Metrics) : Prop :=
  match o with
  | .disk =>
      m1.memory_usage_percent = m2.memory_usage_percent ∧
      m1.memory_percent = m2.memory_percent ∧ m1.connections = m2.connections ∧
      m1.temp_files = m2.temp_files ∧
      m1.replication_lag_seconds = m2.replication_lag_seconds ∧
      m1.cpu_percent = m2.cpu_percent
  | .memUsage =>
      m1.disk_usage_percent = m2.disk_usage_percent ∧
      m1.memory_percent = m2.memory_percent ∧ m1.connections = m2.connections ∧
      m1.temp_files = m2.temp_files ∧
      m1.replication_lag_seconds = m2.replication_lag_seconds ∧
      m1.cpu_percent = m2.cpu_percent
  | .memPercent =>
      m1.disk_usage_percent = m2.disk_usage_percent ∧
      m1.memory_usage_percent = m2.memory_usage_percent ∧
      m1.connections = m2.connections ∧ m1.temp_files = m2.temp_files ∧
      m1.replication_lag_seconds = m2.replication_lag_seconds ∧
      m1.cpu_percent = m2.cpu_percent
  | .conns =>
      m1.disk_usage_percent = m2.disk_usage_percent ∧
      m1.memory_usage_percent = m2.memory_usage_percent ∧
      m1.memory_percent = m2.memory_percent ∧ m1.temp_files = m2.temp_files ∧
      m1.replication_lag_seconds = m2.replication_lag_seconds ∧
      m1.cpu_percent = m2.cpu_percent
  | .temp =>
      m1.disk_usage_percent = m2.disk_usage_percent ∧
      m1.memory_usage_percent = m2.memory_usage_percent ∧
      m1.memory_percent = m2.memory_percent ∧ m1.connections = m2.connections ∧
      m1.replication_lag_seconds = m2.replication_lag_seconds ∧
      m1.cpu_percent = m2.cpu_percent
  | .repl =>
      m1.disk_usage_percent = m2.disk_usage_percent ∧
      m1.memory_usage_percent = m2.memory_usage_percent ∧
      m1.memory_percent = m2.memory_percent ∧ m1.connections = m2.connections ∧
      m1.temp_files = m2.temp_files ∧ m1.cpu_percent = m2.cpu_percent
  | .cpu =>
      m1.disk_usage_percent = m2.disk_usage_percent ∧
      m1.memory_usage_percent = m2.memory_usage_percent ∧
      m1.memory_percent = m2.memory_percent ∧ m1.connections = m2.connections ∧
      m1.temp_files = m2.temp_files ∧
      m1.replication_lag_seconds = m2.replication_lag_seconds

instance (o : Obs) (m1 m2 : Metrics) : Decidable (differOnlyAt o m1 m2) := by
  unfold differOnlyAt; cases o <;> infer_instance

/-- Severity of the rule the external-ops evaluator applies to one
observation axis (0 on axes that evaluator ignores). -/
def extObsSev (o : Obs) (m : Metrics) : Nat :=
  match o with
  | .disk => extSevDisk m
  | .memUsage => extSevMem m
  | .conns => extSevConn m
  | .temp => extSevTemp m
  | .repl => extSevRepl m
  | .memPercent => 0
  | .cpu => 0

/-- Severity of the rule the stats-collector evaluator applies to one
observation axis (0 on axes that evaluator ignores). -/
def statsObsSev (o : Obs) (m : Metrics) : Nat :=
  match o with
  | .disk => statsSevDisk m
  | .memPercent => statsSevMem m
  | .conns => statsSevConn m
  | .cpu => statsSevCpu m
  | .memUsage => 0
  | .temp => 0
  | .repl => 0

/-! ## Store model

The pydal tables the modelled operations touch, as lists of rows with the
columns those operations read or write.  Timestamps are abstract Nat
ticks; each operation receives the clock value "now" used for every
datetime.now()/utcnow() call it performs (the claims only inspect which
timestamp fields are set, never their spacing).  Store writes are assumed
to succeed, as in every run the claims describe. -/

/-- The connection_info JSON blob written by the provisioner. -/
structure ConnectionInfoRec where
  host : String
  port : Nat
  namespaceName : String
  service_name : String
  protocol : String
deriving DecidableEq, Repr

structure TeamRow where
  id : Nat
  name : String
deriving DecidableEq, Repr

structure ResourceTypeRow where
  id : Nat
  name : String
  category : String
  supports_full_lifecycle : Bool
  supports_partial_lifecycle : Bool
  supports_user_management : Bool
  supports_backup : Bool
deriving DecidableEq, Repr

structure ResourceRow where
  id : Nat
  name : String
  resource_type_id : Nat
  team_id : Nat
  status : String
  lifecycle_mode : String
  connection_info : Option ConnectionInfoRec
  credentials : Option (List (String × String))
  config : List (String × String)
  can_modify_users : Bool
  can_modify_config : Bool
  can_backup : Bool
  can_scale : Bool
  k8s_namespace : Option String
  k8s_resource_name : Option String
  k8s_resource_type : Option String
  created_at : Nat
  updated_at : Nat
  deleted_at : Option Nat
deriving DecidableEq, Repr

structure ResourceUserRow where
  id : Nat
  resource_id : Nat
  username : String
  password_hash : Option String
  roles : List String
  sync_status : String
  last_synced_at : Option Nat
  sync_error : Option String
  created_at : Nat
  updated_at : Nat
  deleted_at : Option Nat
deriving DecidableEq, Repr

structure BackupJobRow where
  id : Nat
  resource_id : Nat
  job_type : String
  status : String
  backup_location : Option String
  backup_size_bytes : Option Nat
  started_at : Option Nat
  completed_at : Option Nat
  error_message : Option String
  created_by : Option Nat
  created_at : Nat
deriving DecidableEq, Repr

structure ProvisioningJobRow where
  id : Nat
  resource_id : Nat
  job_type : String
  status : String
  started_at : Option Nat
  completed_at : Option Nat
  logs : Option String
  error_message : Option String
  created_by : Option Nat
  created_at : Nat
deriving DecidableEq, Repr

structure ResourceStatRow where
  id : Nat
  resource_id : Nat
  timestamp : Nat
  metrics : Metrics
  risk_level : String
  risk_factors : List String
deriving DecidableEq, Repr

/-- Audit rows; the details JSON blob is kept as key-value pairs (no
claim inspects it). -/
structure AuditRow where
  id : Nat
  user_id : Option Nat
  action : String
  resource_type : String
  resource_id : Option Nat
  team_id : Option Nat
  details : List (String × String)
  timestamp : Nat
deriving DecidableEq, Repr

structure CertificateRow where
  id : Nat
  ca_id : Nat
  resource_id : Option Nat
  common_name : String
  san_dns : List String
  san_ips : List String
  certificate : String
  private_key : String
  valid_until : Nat
  renewal_threshold_days : Nat
  auto_renew : Bool
  updated_at : Nat
  deleted_at : Option Nat
deriving DecidableEq, Repr

structure CARow where
  id : Nat
  name : String
deriving DecidableEq, Repr

structure DB where
  teams : List TeamRow
  resource_types : List ResourceTypeRow
  resources : List ResourceRow
  resource_users : List ResourceUserRow
  backup_jobs : List BackupJobRow
  provisioning_jobs : List ProvisioningJobRow
  resource_stats : List ResourceStatRow
  audit_logs : List AuditRow
  certificates : List CertificateRow
  certificate_authorities : List CARow
  next_backup_job_id : Nat
  next_provisioning_job_id : Nat
  next_stat_id : Nat
  next_audit_id : Nat
deriving DecidableEq, Repr

def DB.findTeam (db : DB) (i : Nat) : Option TeamRow :=
  db.teams.find? (fun r => r.id = i)

def DB.findResourceType (db : DB) (i : Nat) : Option ResourceTypeRow :=
  db.resource_types.find? (fun r => r.id = i)

def DB.findResource (db : DB) (i : Nat) : Option ResourceRow :=
  db.resources.find? (fun r => r.id = i)

def DB.findResourceUser (db : DB) (i : Nat) : Option ResourceUserRow :=
  db.resource_users.find? (fun r => r.id = i)

def DB.findBackupJob (db : DB) (i : Nat) : Option BackupJobRow :=
  db.backup_jobs.find? (fun r => r.id = i)

def DB.findCertificate (db : DB) (i : Nat) : Option CertificateRow :=
  db.certificates.find? (fun r => r.id = i)

def DB.findCA (db : DB) (i : Nat) : Option CARow :=
  db.certificate_authorities.find? (fun r => r.id = i)

/-- Update the fields of the resource row with the given id (an
update_or_insert whose query matches an existing row, as in every run the
claims describe). -/
def DB.updateResources (db : DB) (i : Nat) (f : ResourceRow → ResourceRow) : DB :=
  { db with resources := db.resources.map (fun r => if r.id = i then f r else r) }

def DB.updateResourceUsers (db : DB) (i : Nat) (f : ResourceUserRow → ResourceUserRow) : DB :=
  { db with resource_users := db.resource_users.map (fun r => if r.id = i then f r else r) }

def DB.updateBackupJobs (db : DB) (i : Nat) (f : BackupJobRow → BackupJobRow) : DB :=
  { db with backup_jobs := db.backup_jobs.map (fun r => if r.id = i then f r else r) }

def DB.updateCertificates (db : DB) (i : Nat) (f : CertificateRow → CertificateRow) : DB :=
  { db with certificates := db.certificates.map (fun r => if r.id = i then f r else r) }

namespace ExternalOpsController

/-- Exceptions raised by the external-ops controller: the resource
validation error, and a connector-side error (also used for an exception
propagating out of a connector call). -/
inductive ExtErr where
  | invalidResource (msg : String)
  | connectorErr (msg : String)
deriving DecidableEq, Repr

def SUPPORTED_LIFECYCLE_MODES : List String := ["partial", "monitor_only"]

/-- Keys of CONNECTOR_MAP (note: no db-valkey entry here). -/
def CONNECTOR_MAP_KEYS : List String :=
  ["db-postgresql", "db-mariadb", "db-redis", "storage-ceph", "storage-san"]

/-- Shallow embedding of ExternalOpsController._load_resource: a pydal
row lookup by id followed by a truthiness check; the deleted_at column is
not consulted. -/
def load_resource (db : DB) (resource_id : Nat) : Except ExtErr ResourceRow :=
  match db.findResource resource_id with
  | none => .error (.invalidResource ("Resource " ++ toString resource_id ++ " not found"))
  | some r => .ok r

def get_resource_type (db : DB) (resource_type_id : Nat) : Except ExtErr ResourceTypeRow :=
  match db.findResourceType resource_type_id with
  | none => .error (.invalidResource ("Resource type " ++ toString resource_type_id ++ " not found"))
  | some rt => .ok rt

def validate_lifecycle_mode (resource : ResourceRow) : Except ExtErr Unit :=
  if resource.lifecycle_mode ∈ SUPPORTED_LIFECYCLE_MODES then .ok ()
  else .error (.invalidResource ("Resource lifecycle mode " ++ resource.lifecycle_mode ++
    " does not support external operations. Only partial and monitor_only modes supported."))

def get_connector_class (resource_type_name : String) : Except ExtErr Unit :=
  if resource_type_name ∈ CONNECTOR_MAP_KEYS then .ok ()
  else .error (.connectorErr ("Unsupported resource type " ++ resource_type_name))

/-- Outcome of each connector call an external operation can make;
has_create_user and has_reload_config model the hasattr probes. -/
structure ConnectorEnv where
  init_result : Except String Unit
  update_config_result : Except String Unit
  has_create_user : Bool
  create_user_result : String → Except String Unit
  trigger_backup_result : Except String String
  restore_backup_result : Except String Unit
  collect_stats_result : Except String Metrics
  has_reload_config : Bool
  reload_config_result : Except String Unit

/-- Shallow embedding of _initialize_connector (any construction failure
becomes a ConnectorError). -/
def init_connector (env : ConnectorEnv) (resource : ResourceRow) : Except ExtErr Unit :=
  match env.init_result with
  | .ok _ => .ok ()
  | .error e => .error (.connectorErr
      ("Failed to initialize connector for resource " ++ toString resource.id ++ ": " ++ e))

/-- Shallow embedding of _create_audit_log (best effort in the source;
the store write succeeds in every modelled run).  The team id falls back
to the resource row's team. -/
def create_audit_log (db : DB) (resource_id : Nat) (action : String)
    (details : List (String × String)) (user_id team_id : Option Nat) (now : Nat) : DB :=
  let tid := match team_id with
    | some t => some t
    | none => (db.findResource resource_id).map (fun r => r.team_id)
  { db with
    audit_logs := db.audit_logs ++
      [⟨db.next_audit_id, user_id, action, "resource", some resource_id, tid, details, now⟩]
    next_audit_id := db.next_audit_id + 1 }

/-- Python dict.update semantics on the stored config blob: existing keys
keep their position with the new value, new keys are appended. -/
def mergeConfig (base upd : List (String × String)) : List (String × String) :=
  base.map (fun kv =>
    match upd.find? (fun kv2 => kv2.1 = kv.1) with
    | some kv2 => (kv.1, kv2.2)
    | none => kv) ++
  upd.filter (fun kv2 => base.all (fun kv => kv.1 ≠ kv2.1))

/-- Shallow embedding of ExternalOpsController.update_resource_config:
load, lifecycle check, capability check, connector dispatch, connector
update_config, config merge, audit. -/
def update_resource_config (db : DB) (resource_id : Nat)
    (config_params : List (String × String)) (user_id : Option Nat)
    (env : ConnectorEnv) (now : Nat) : DB × Except ExtErr Bool :=
  match load_resource db resource_id with
  | .error e => (db, .error e)
  | .ok resource =>
  match validate_lifecycle_mode resource with
  | .error e => (db, .error e)
  | .ok _ =>
  if ¬ resource.can_modify_config then
    (db, .error (.invalidResource
      ("Resource " ++ toString resource_id ++ " does not allow configuration modifications")))
  else
  match get_resource_type db resource.resource_type_id with
  | .error e => (db, .error e)
  | .ok rt =>
  match get_connector_class rt.name with
  | .error e => (db, .error e)
  | .ok _ =>
  match init_connector env resource with
  | .error e => (db, .error e)
  | .ok _ =>
  match env.update_config_result with
  | .error e => (db, .error (.connectorErr e))
  | .ok _ =>
    let merged := mergeConfig resource.config config_params
    let db1 := db.updateResources resource_id
      (fun r => { r with config := merged, updated_at := now })
    let db2 := create_audit_log db1 resource_id "update_config"
      [("status", "completed")] user_id (some resource.team_id) now
    (db2, .ok true)

/-- Connector user calls the per-user loop of update_resource_users can
make, tagged with the resource_user row id. -/
inductive ConnCall where
  | create_user (row_id : Nat) (username : String)
deriving DecidableEq, Repr

/-- Body of the per-user loop of update_resource_users for one selected
row.  The guard reads the sync_status of the selected snapshot (the
in-memory row from the select, not the syncing value just written), so
create_user runs only for rows selected with status pending.  The
accumulator carries the store, the per-row (id, ok) outcomes (ok rows are
the ones counted in synced_count) and the connector-call trace. -/
def sync_one_user (env : ConnectorEnv) (now : Nat)
    (acc : DB × List (Nat × Bool) × List ConnCall) (res_user : ResourceUserRow) :
    DB × List (Nat × Bool) × List ConnCall :=
  let db := acc.1
  let outcomes := acc.2.1
  let trace := acc.2.2
  let db1 := db.updateResourceUsers res_user.id
    (fun u => { u with sync_status := "syncing", updated_at := now })
  if env.has_create_user ∧ res_user.sync_status = "pending" then
    match env.create_user_result res_user.username with
    | .error e =>
      (db1.updateResourceUsers res_user.id
        (fun u => { u with sync_status := "error", sync_error := some e, updated_at := now }),
       outcomes ++ [(res_user.id, false)],
       trace ++ [ConnCall.create_user res_user.id res_user.username])
    | .ok _ =>
      (db1.updateResourceUsers res_user.id
        (fun u => { u with sync_status := "synced", last_synced_at := some now,
                           sync_error := none, updated_at := now }),
       outcomes ++ [(res_user.id, true)],
       trace ++ [ConnCall.create_user res_user.id res_user.username])
  else
    (db1.updateResourceUsers res_user.id
      (fun u => { u with sync_status := "synced", last_synced_at := some now,
                         sync_error := none, updated_at := now }),
     outcomes ++ [(res_user.id, true)], trace)

/-- Shallow embedding of ExternalOpsController.update_resource_users.
Returns the store, the per-row outcomes (synced_count is the number of
true entries), the connector-call trace, and the Python return value
(True when sync_errors stayed empty). -/
def update_resource_users (db : DB) (resource_id : Nat) (user_id : Option Nat)
    (env : ConnectorEnv) (now : Nat) :
    DB × List (Nat × Bool) × List ConnCall × Except ExtErr Bool :=
  match load_resource db resource_id with
  | .error e => (db, [], [], .error e)
  | .ok resource =>
  match validate_lifecycle_mode resource with
  | .error e => (db, [], [], .error e)
  | .ok _ =>
  if ¬ resource.can_modify_users then
    (db, [], [], .error (.invalidResource
      ("Resource " ++ toString resource_id ++ " does not allow user modifications")))
  else
  match get_resource_type db resource.resource_type_id with
  | .error e => (db, [], [], .error e)
  | .ok rt =>
  match get_connector_class rt.name with
  | .error e => (db, [], [], .error e)
  | .ok _ =>
  match init_connector env resource with
  | .error e => (db, [], [], .error e)
  | .ok _ =>
    let rows := db.resource_users.filter (fun u => u.resource_id = resource_id)
    let folded := rows.foldl (sync_one_user env now) (db, [], [])
    let db1 := folded.1
    let outcomes := folded.2.1
    let trace := folded.2.2
    let db2 := create_audit_log db1 resource_id "sync_users"
      [("status", "completed")] user_id (some resource.team_id) now
    (db2, outcomes, trace, .ok (outcomes.all (fun o => o.2)))

/-- Shallow embedding of ExternalOpsController.trigger_backup.  The fs
argument models os.path: the on-disk size of a path, none when the path
does not exist (the source then records size 0).  The middle component
records the status transitions of the backup job row, in order. -/
def trigger_backup (db : DB) (resource_id : Nat) (backup_type : String)
    (backup_location : Option String) (user_id : Option Nat)
    (env : ConnectorEnv) (fs : String → Option Nat) (now : Nat) :
    DB × List (Nat × String) × Except ExtErr Nat :=
  match load_resource db resource_id with
  | .error e => (db, [], .error e)
  | .ok resource =>
  match validate_lifecycle_mode resource with
  | .error e => (db, [], .error e)
  | .ok _ =>
  if ¬ resource.can_backup then
    (db, [], .error (.invalidResource
      ("Resource " ++ toString resource_id ++ " does not support backup operations")))
  else
  match get_resource_type db resource.resource_type_id with
  | .error e => (db, [], .error e)
  | .ok rt =>
  match get_connector_class rt.name with
  | .error e => (db, [], .error e)
  | .ok _ =>
  match init_connector env resource with
  | .error e => (db, [], .error e)
  | .ok _ =>
    let jid := db.next_backup_job_id
    let db1 := { db with
      backup_jobs := db.backup_jobs ++
        [(⟨jid, resource_id, backup_type, "pending", backup_location,
          none, none, none, none, user_id, now⟩ : BackupJobRow)]
      next_backup_job_id := jid + 1 }
    let db2 := db1.updateBackupJobs jid
      (fun j => { j with status := "running", started_at := some now })
    match env.trigger_backup_result with
    | .ok backup_path =>
      let backup_size : Nat := match fs backup_path with
        | some s => s
        | none => 0
      let db3 := db2.updateBackupJobs jid
        (fun j => { j with status := "completed", backup_location := some backup_path,
                           backup_size_bytes := some backup_size, completed_at := some now })
      let db4 := create_audit_log db3 resource_id "trigger_backup"
        [("status", "completed")] user_id (some resource.team_id) now
      (db4, [(jid, "pending"), (jid, "running"), (jid, "completed")], .ok jid)
    | .error e =>
      let db3 := db2.updateBackupJobs jid
        (fun j => { j with status := "failed", error_message := some e,
                           completed_at := some now })
      let db4 := create_audit_log db3 resource_id "trigger_backup"
        [("status", "failed")] user_id (some resource.team_id) now
      (db4, [(jid, "pending"), (jid, "running"), (jid, "failed")],
       .error (.connectorErr ("Backup operation failed: " ++ e)))

/-- Shallow embedding of ExternalOpsController.restore_backup (job type
restore, no size capture). -/
def restore_backup (db : DB) (resource_id : Nat) (backup_location : String)
    (user_id : Option Nat) (env : ConnectorEnv) (now : Nat) :
    DB × List (Nat × String) × Except ExtErr Nat :=
  match load_resource db resource_id with
  | .error e => (db, [], .error e)
  | .ok resource =>
  match validate_lifecycle_mode resource with
  | .error e => (db, [], .error e)
  | .ok _ =>
  if ¬ resource.can_backup then
    (db, [], .error (.invalidResource
      ("Resource " ++ toString resource_id ++ " does not support backup/restore operations")))
  else
  match get_resource_type db resource.resource_type_id with
  | .error e => (db, [], .error e)
  | .ok rt =>
  match get_connector_class rt.name with
  | .error e => (db, [], .error e)
  | .ok _ =>
  match init_connector env resource with
  | .error e => (db, [], .error e)
  | .ok _ =>
    let jid := db.next_backup_job_id
    let db1 := { db with
      backup_jobs := db.backup_jobs ++
        [(⟨jid, resource_id, "restore", "pending", some backup_location,
          none, none, none, none, user_id, now⟩ : BackupJobRow)]
      next_backup_job_id := jid + 1 }
    let db2 := db1.updateBackupJobs jid
      (fun j => { j with status := "running", started_at := some now })
    match env.restore_backup_result with
    | .ok _ =>
      let db3 := db2.updateBackupJobs jid
        (fun j => { j with status := "completed", completed_at := some now })
      let db4 := create_audit_log db3 resource_id "restore_backup"
        [("status", "completed")] user_id (some resource.team_id) now
      (db4, [(jid, "pending"), (jid, "running"), (jid, "completed")], .ok jid)
    | .error e =>
      let db3 := db2.updateBackupJobs jid
        (fun j => { j with status := "failed", error_message := some e,
                           completed_at := some now })
      let db4 := create_audit_log db3 resource_id "restore_backup"
        [("status", "failed")] user_id (some resource.team_id) now
      (db4, [(jid, "pending"), (jid, "running"), (jid, "failed")],
       .error (.connectorErr ("Restore operation failed: " ++ e)))

/-- Shallow embedding of ExternalOpsController.collect_resource_stats:
connector stats, risk evaluation, a resource_stats row, and an audit
entry only when the level is high or critical. -/
def collect_resource_stats (db : DB) (resource_id : Nat) (user_id : Option Nat)
    (env : ConnectorEnv) (now : Nat) : DB × Except ExtErr (String × List String) :=
  match load_resource db resource_id with
  | .error e => (db, .error e)
  | .ok resource =>
  match validate_lifecycle_mode resource with
  | .error e => (db, .error e)
  | .ok _ =>
  match get_resource_type db resource.resource_type_id with
  | .error e => (db, .error e)
  | .ok rt =>
  match get_connector_class rt.name with
  | .error e => (db, .error e)
  | .ok _ =>
  match init_connector env resource with
  | .error e => (db, .error e)
  | .ok _ =>
  match env.collect_stats_result with
  | .error e => (db, .error (.connectorErr e))
  | .ok metrics =>
    let rl := calculate_risk_level metrics rt.name
    let sid := db.next_stat_id
    let db1 := { db with
      resource_stats := db.resource_stats ++
        [⟨sid, resource_id, now, metrics, rl.1, rl.2⟩]
      next_stat_id := sid + 1 }
    let db2 :=
      if rl.1 = "high" ∨ rl.1 = "critical" then
        create_audit_log db1 resource_id "collect_stats"
          [("risk_level", rl.1)] user_id (some resource.team_id) now
      else db1
    (db2, .ok rl)

/-- Shallow embedding of ExternalOpsController.reload_configuration. -/
def reload_configuration (db : DB) (resource_id : Nat) (user_id : Option Nat)
    (env : ConnectorEnv) (now : Nat) : DB × Except ExtErr Bool :=
  match load_resource db resource_id with
  | .error e => (db, .error e)
  | .ok resource =>
  match validate_lifecycle_mode resource with
  | .error e => (db, .error e)
  | .ok _ =>
  match get_resource_type db resource.resource_type_id with
  | .error e => (db, .error e)
  | .ok rt =>
  match get_connector_class rt.name with
  | .error e => (db, .error e)
  | .ok _ =>
  match init_connector env resource with
  | .error e => (db, .error e)
  | .ok _ =>
  if ¬ env.has_reload_config then
    (db, .error (.connectorErr
      ("Connector for " ++ rt.name ++ " does not support reload_config")))
  else
  match env.reload_config_result with
  | .error e => (db, .error (.connectorErr e))
  | .ok _ =>
    (create_audit_log db resource_id "reload_config"
      [("status", "completed")] user_id (some resource.team_id) now, .ok true)

end ExternalOpsController

namespace ProvisioningController

/-- Kubernetes client calls the provisioner can make, recorded in order. -/
inductive K8sCall where
  | createNamespace (ns : String)
  | createSecret (ns name : String)
  | createStatefulSet (ns name : String)
  | createService (ns name : String)
  | deleteNamespace (ns : String)
  | deleteStatefulSet (ns name : String)
  | getNamespace (ns : String)
deriving DecidableEq, Repr

/-- One document of the rendered manifest bundle: its kind and its
metadata.name. -/
structure Manifest where
  kind : String
  name : String
deriving DecidableEq, Repr

/-- Outcomes of the cluster and templating calls made by
provision_resource.  statefulset_ready is the outcome of
_wait_for_statefulset_ready within its 300 second budget; credentials is
the outcome of _generate_resource_credentials (a secure random draw);
encrypt is EncryptionManager.encrypt. -/
structure ProvEnv where
  create_namespace_result : Except String Unit
  create_secret_result : Except String Unit
  render_result : Except String (List Manifest)
  create_statefulset_result : Except String Unit
  create_service_result : Except String Unit
  statefulset_ready : Bool
  credentials : List (String × String)
  encrypt : String → String

def SUPPORTED_RESOURCE_TYPES : List String :=
  ["db-postgresql", "db-redis", "db-mariadb", "db-valkey"]

/-- DEFAULT_PORTS.get(name, 5432). -/
def DEFAULT_PORTS (name : String) : Nat :=
  if name = "db-postgresql" then 5432
  else if name = "db-redis" then 6379
  else if name = "db-mariadb" then 3306
  else if name = "db-valkey" then 6379
  else 5432

/-- The manifest-splitting loop keeps the last document of each kind. -/
def pickManifest (kind : String) (ms : List Manifest) : Option Manifest :=
  ms.foldl (fun acc mf => if mf.kind = kind then some mf else acc) none

/-- Return value of the provisioning operations (the fields the claims
read). -/
structure ProvisioningStatus where
  resource_id : Nat
  status : String
  namespaceName : Option String
  k8s_resource_name : Option String
deriving DecidableEq, Repr

/-- Shallow embedding of the except-handler of provision_resource: mark
the resource error, insert the failed provision job (error message
prefixed, hence never empty), then attempt the Kubernetes rollback only
when the row re-read from the store carries a k8s_namespace, and re-raise
the original error.  Rollback failures are swallowed by the source and
cannot replace the re-raised error. -/
def provisionFailure (db : DB) (resource_id created_by : Nat)
    (trace : List K8sCall) (msg : String) (now : Nat) :
    DB × List K8sCall × Except String ProvisioningStatus :=
  let error_msg := "Provisioning failed: " ++ msg
  let db1 := db.updateResources resource_id
    (fun r => { r with status := "error", updated_at := now })
  let db2 := { db1 with
    provisioning_jobs := db1.provisioning_jobs ++
      [(⟨db1.next_provisioning_job_id, resource_id, "provision", "failed",
         some now, some now, some error_msg, some error_msg, some created_by,
         now⟩ : ProvisioningJobRow)]
    next_provisioning_job_id := db1.next_provisioning_job_id + 1 }
  match db2.findResource resource_id with
  | some r =>
    match r.k8s_namespace with
    | some ns =>
      let rollback := [K8sCall.deleteNamespace ns] ++
        (match r.k8s_resource_name with
         | some n => [K8sCall.deleteStatefulSet ns n]
         | none => [])
      (db2, trace ++ rollback, .error msg)
    | none => (db2, trace, .error msg)
  | none => (db2, trace, .error msg)

/-- Shallow embedding of ProvisioningController.provision_resource.
Returns the store, the ordered Kubernetes call trace, and the Python
outcome (the returned status, or the re-raised exception message).  Every
failure inside the try block flows through provisionFailure, as in the
source. -/
def provision_resource (db : DB) (resource_id created_by : Nat)
    (env : ProvEnv) (now : Nat) :
    DB × List K8sCall × Except String ProvisioningStatus :=
  match db.findResource resource_id with
  | none => provisionFailure db resource_id created_by []
      ("Resource not found: " ++ toString resource_id) now
  | some resource =>
  match db.findResourceType resource.resource_type_id with
  | none => provisionFailure db resource_id created_by []
      "AttributeError: NoneType object has no attribute name" now
  | some resource_type =>
  if ¬ resource_type.supports_full_lifecycle then
    provisionFailure db resource_id created_by []
      ("Resource type " ++ resource_type.name ++
       " does not support full lifecycle provisioning") now
  else if resource_type.name ∉ SUPPORTED_RESOURCE_TYPES then
    provisionFailure db resource_id created_by []
      ("Resource type " ++ resource_type.name ++
       " is not supported by provisioning controller") now
  else
  match db.findTeam resource.team_id with
  | none => provisionFailure db resource_id created_by []
      "AttributeError: NoneType object has no attribute id" now
  | some team =>
    let ns := "team-" ++ toString team.id
    let tr1 := [K8sCall.createNamespace ns]
    match env.create_namespace_result with
    | .error e => provisionFailure db resource_id created_by tr1 e now
    | .ok _ =>
    let credentials := env.credentials
    let secret_name := resource.name ++ "-secret"
    let tr2 := tr1 ++ [K8sCall.createSecret ns secret_name]
    match env.create_secret_result with
    | .error e => provisionFailure db resource_id created_by tr2 e now
    | .ok _ =>
    match env.render_result with
    | .error e => provisionFailure db resource_id created_by tr2 e now
    | .ok manifests =>
    let service_manifest := pickManifest "Service" manifests
    match pickManifest "StatefulSet" manifests with
    | none => provisionFailure db resource_id created_by tr2
        ("No StatefulSet found in template for " ++ resource_type.name) now
    | some ss =>
      let k8s_resource_name := ss.name
      let tr3 := tr2 ++ [K8sCall.createStatefulSet ns k8s_resource_name]
      match env.create_statefulset_result with
      | .error e => provisionFailure db resource_id created_by tr3 e now
      | .ok _ =>
      let tr4 := tr3 ++ (match service_manifest with
        | some sm => [K8sCall.createService ns sm.name]
        | none => [])
      match (match service_manifest with
             | some _ => env.create_service_result
             | none => .ok ()) with
      | .error e => provisionFailure db resource_id created_by tr4 e now
      | .ok _ =>
      if ¬ env.statefulset_ready then
        provisionFailure db resource_id created_by tr4
          ("StatefulSet " ++ k8s_resource_name ++
           " failed to become ready within 300 seconds") now
      else
      match service_manifest with
      | none =>
        -- the local service_name is only bound inside the service branch
        provisionFailure db resource_id created_by tr4
          "NameError: name service_name is not defined" now
      | some sm =>
        let endpoint := sm.name ++ "." ++ ns ++ ".svc.cluster.local"
        let port := DEFAULT_PORTS resource_type.name
        let connection_info : ConnectionInfoRec := ⟨endpoint, port, ns, sm.name, "tcp"⟩
        let encrypted := credentials.map (fun kv => (kv.1, env.encrypt kv.2))
        let db1 := db.updateResources resource_id (fun r =>
          { r with status := "active", k8s_namespace := some ns,
                   k8s_resource_name := some k8s_resource_name,
                   k8s_resource_type := some "StatefulSet",
                   connection_info := some connection_info,
                   credentials := some encrypted, updated_at := now })
        let db2 := { db1 with
          provisioning_jobs := db1.provisioning_jobs ++
            [(⟨db1.next_provisioning_job_id, resource_id, "provision", "completed",
               some now, some now,
               some ("Successfully provisioned resource " ++ resource.name), none,
               some created_by, now⟩ : ProvisioningJobRow)]
          next_provisioning_job_id := db1.next_provisioning_job_id + 1 }
        (db2, tr4, .ok ⟨resource_id, "active", some ns, some k8s_resource_name⟩)

/-- Outcomes of the cluster calls made by deprovision_resource.
namespace_exists_at i tells whether get_namespace still finds the
namespace on the i-th poll (a lookup failure ends the wait). -/
structure DeprovEnv where
  delete_namespace_result : Except String Unit
  namespace_exists_at : Nat → Bool

/-- Poll loop of _wait_for_namespace_deletion: at most fuel polls, each
recorded as a get_namespace call; returns whether deletion was observed
together with the poll trace. -/
def waitPolls (env : DeprovEnv) (ns : String) : Nat → Nat → Bool × List K8sCall
  | _, 0 => (false, [])
  | i, fuel + 1 =>
    if env.namespace_exists_at i then
      let rest := waitPolls env ns (i + 1) fuel
      (rest.1, K8sCall.getNamespace ns :: rest.2)
    else (true, [K8sCall.getNamespace ns])

/-- Shallow embedding of _wait_for_namespace_deletion with timeout=60 and
a 2 second sleep per iteration: at most 30 polls. -/
def wait_for_namespace_deletion (env : DeprovEnv) (ns : String) : Bool × List K8sCall :=
  waitPolls env ns 0 30

/-- Except-handler of deprovision_resource: insert the failed job and
re-raise. -/
def deprovisionFailure (db : DB) (resource_id created_by : Nat)
    (trace : List K8sCall) (msg : String) (now : Nat) :
    DB × List K8sCall × Except String ProvisioningStatus :=
  let error_msg := "Deprovisioning failed: " ++ msg
  ({ db with
     provisioning_jobs := db.provisioning_jobs ++
       [(⟨db.next_provisioning_job_id, resource_id, "deprovision", "failed",
          some now, some now, some error_msg, some error_msg, some created_by,
          now⟩ : ProvisioningJobRow)]
     next_provisioning_job_id := db.next_provisioning_job_id + 1 },
   trace, .error msg)

/-- Shallow embedding of ProvisioningController.deprovision_resource:
delete the namespace, wait for its deletion (the wait result is ignored
by the source), then set status deleted and clear the cluster binding
(the deleted_at column is not written), and insert the completed job. -/
def deprovision_resource (db : DB) (resource_id created_by : Nat)
    (env : DeprovEnv) (now : Nat) :
    DB × List K8sCall × Except String ProvisioningStatus :=
  match db.findResource resource_id with
  | none => deprovisionFailure db resource_id created_by []
      ("Resource not found: " ++ toString resource_id) now
  | some resource =>
  match resource.k8s_namespace with
  | none => deprovisionFailure db resource_id created_by []
      ("Resource " ++ toString resource_id ++ " has no Kubernetes namespace associated") now
  | some ns =>
  match env.delete_namespace_result with
  | .error e => deprovisionFailure db resource_id created_by
      [K8sCall.deleteNamespace ns] e now
  | .ok _ =>
    let waited := wait_for_namespace_deletion env ns
    let db1 := db.updateResources resource_id (fun r =>
      { r with status := "deleted", k8s_namespace := none,
               k8s_resource_name := none, updated_at := now })
    let db2 := { db1 with
      provisioning_jobs := db1.provisioning_jobs ++
        [(⟨db1.next_provisioning_job_id, resource_id, "deprovision", "completed",
           some now, some now,
           some ("Successfully deprovisioned resource " ++ resource.name), none,
           some created_by, now⟩ : ProvisioningJobRow)]
      next_provisioning_job_id := db1.next_provisioning_job_id + 1 }
    (db2, K8sCall.deleteNamespace ns :: waited.2, .ok ⟨resource_id, "deleted", none, none⟩)

end ProvisioningController

namespace CertRotationWorker

/-- Exceptions of the certificate rotation worker that reach
_rotation_cycle. -/
inductive RenewErr where
  | certificateRenewalError (msg : String)
  | caNotFoundError (msg : String)
deriving DecidableEq, Repr

/-- CertificateInfo dataclass. -/
structure CertificateInfo where
  cert_id : Nat
  resource_id : Option Nat
  ca_id : Nat
  common_name : String
  san_dns : List String
  san_ips : List String
  valid_until : Nat
  renewal_threshold_days : Nat
  auto_renew : Bool
  k8s_namespace : Option String
  k8s_resource_name : Option String
deriving DecidableEq, Repr

/-- Outcomes of the CA manager and cluster calls during one renewal. -/
structure CertRenewEnv where
  renew_result : Except String (String × String × Nat)
  k8s_client_present : Bool
  apply_manifest_result : Except String Unit

/-- Shallow embedding of CertRotationWorker.renew_certificate: any
failure inside (including the not-found ValueErrors) is rewrapped as a
CertificateRenewalError, except a CANotFoundError which propagates. -/
def renew_certificate (db : DB) (env : CertRenewEnv) (cert_id : Nat) :
    Except RenewErr (String × String × Nat) :=
  match db.findCertificate cert_id with
  | none => .error (.certificateRenewalError
      ("Renewal operation failed: Certificate " ++ toString cert_id ++ " not found"))
  | some cert =>
  match db.findCA cert.ca_id with
  | none => .error (.caNotFoundError
      ("CA " ++ toString cert.ca_id ++ " not found or not available"))
  | some _ =>
  match env.renew_result with
  | .ok r => .ok r
  | .error e => .error (.certificateRenewalError ("Renewal operation failed: " ++ e))

/-- Shallow embedding of CertRotationWorker.update_k8s_secret: skipped
(ok) without a cluster client or without cluster metadata on the
resource; a failing apply_manifest raises K8sUpdateError. -/
def update_k8s_secret (env : CertRenewEnv) (resource : ResourceRow) :
    Except String Unit :=
  if ¬ env.k8s_client_present then .ok ()
  else
    match resource.k8s_namespace, resource.k8s_resource_name with
    | some _, some _ =>
      match env.apply_manifest_result with
      | .ok _ => .ok ()
      | .error e => .error ("Secret update failed: " ++ e)
    | _, _ => .ok ()

/-- Shallow embedding of _renew_certificate_with_recovery.  The old cert
and key are captured before any write; the store write of the new
certificate happens only after the cluster-secret step succeeded.  Also
returns the notifications sent (renewal_success on the happy path). -/
def renew_certificate_with_recovery (db : DB) (cert_info : CertificateInfo)
    (env : CertRenewEnv) (now : Nat) : DB × List String × Except RenewErr Unit :=
  match renew_certificate db env cert_info.cert_id with
  | .error (.certificateRenewalError m) => (db, [], .error (.certificateRenewalError m))
  | .error (.caNotFoundError m) =>
      -- caught by the catch-all clause and rewrapped
      (db, [], .error (.certificateRenewalError ("Unexpected error: " ++ m)))
  | .ok (new_cert, new_key, valid_until) =>
    let k8sStep : Except RenewErr Unit :=
      match cert_info.k8s_namespace, cert_info.k8s_resource_name with
      | some _, some _ =>
        match db.findResource (cert_info.resource_id.getD 0) with
        | some resource =>
          match update_k8s_secret env resource with
          | .ok _ => .ok ()
          | .error e => .error (.certificateRenewalError ("K8s update failed: " ++ e))
        | none =>
          .error (.certificateRenewalError
            "Unexpected error: AttributeError: NoneType object has no attribute k8s_namespace")
      | _, _ => .ok ()
    match k8sStep with
    | .error e => (db, [], .error e)
    | .ok _ =>
      -- reload_external_resource_certificate is a no-op returning False
      let db1 := db.updateCertificates cert_info.cert_id (fun c =>
        { c with certificate := new_cert, private_key := new_key,
                 valid_until := valid_until, updated_at := now })
      let db2 := { db1 with
        audit_logs := db1.audit_logs ++
          [(⟨db1.next_audit_id, none, "certificate_renewed", "certificate",
             some cert_info.cert_id, none, [], now⟩ : AuditRow)]
        next_audit_id := db1.next_audit_id + 1 }
      (db2, ["renewal_success"], .ok ())

/-- Handling of one auto_renew certificate inside _rotation_cycle: a
CertificateRenewalError is caught, logged and reported through a
renewal_failed admin notification; the cycle continues. -/
def rotation_handle_cert (db : DB) (cert_info : CertificateInfo)
    (env : CertRenewEnv) (now : Nat) : DB × List String :=
  match renew_certificate_with_recovery db cert_info env now with
  | (db1, sent, .ok _) => (db1, sent)
  | (db1, sent, .error _) => (db1, sent ++ ["renewal_failed"])

end CertRotationWorker

namespace UserSyncWorker

/-- Python exception classes distinguished by the except-clauses of
sync_user. -/
inductive PyExc where
  | connectionError (msg : String)
  | valueError (msg : String)
  | permissionError (msg : String)
  | otherError (msg : String)
deriving DecidableEq, Repr

/-- User-facing message chosen by the except-clauses of sync_user. -/
def classify_sync_error : PyExc → String
  | .connectionError _ => "Connection failed - will retry"
  | .valueError _ => "Invalid configuration - requires manual review"
  | .permissionError _ => "Authentication failed - check credentials"
  | .otherError _ => "Unexpected error occurred - check logs"

/-- Connector calls sync_user can make. -/
inductive UserConnCall where
  | user_exists (username : String)
  | update_user (username : String)
  | create_user (username : String)
deriving DecidableEq, Repr

/-- Outcomes of the connector calls for one sync cycle;
connector_init_ok covers a construction failure inside _get_connector
(which then returns None). -/
structure UserSyncEnv where
  connector_init_ok : Bool
  user_exists_result : String → Except PyExc Bool
  update_user_result : String → Except PyExc Unit
  create_user_result : String → Except PyExc Unit

/-- Resource types _get_connector dispatches on (db-valkey shares the
Redis connector here). -/
def USER_SYNC_TYPES : List String :=
  ["db-postgresql", "db-mariadb", "db-redis", "db-valkey", "storage-ceph", "storage-san"]

/-- Shallow embedding of _get_connector: None (false) when connection
info or credentials are falsy, the type is unknown, or construction
fails. -/
def get_connector (env : UserSyncEnv) (resource_type_name : String)
    (connection_info : Option ConnectionInfoRec)
    (credentials : Option (List (String × String))) : Bool :=
  match connection_info, credentials with
  | none, _ => false
  | _, none => false
  | some _, some creds =>
    if creds.isEmpty then false
    else if resource_type_name ∈ USER_SYNC_TYPES then env.connector_init_ok
    else false

/-- Outcome of one sync_user call. -/
inductive SyncOutcome where
  | rowNotFound
  | synced
  | syncFailed (user_message : String)
deriving DecidableEq, Repr

/-- Shallow embedding of UserSyncWorker.sync_user: mark the row syncing,
resolve resource, type and connector, probe user_exists and dispatch to
update_user or create_user, then mark the row synced; any exception is
classified and recorded on the row by _handle_sync_error. -/
def sync_user (db : DB) (resource_user_id : Nat) (env : UserSyncEnv) (now : Nat) :
    DB × List UserConnCall × SyncOutcome :=
  match db.findResourceUser resource_user_id with
  | none => (db, [], .rowNotFound)
  | some resource_user =>
    let db1 := db.updateResourceUsers resource_user_id
      (fun u => { u with sync_status := "syncing", updated_at := now })
    let uname := resource_user.username
    let attempt : List UserConnCall × Except PyExc Unit :=
      match db1.findResource resource_user.resource_id with
      | none => ([], .error (.valueError
          ("Resource " ++ toString resource_user.resource_id ++ " not found")))
      | some resource =>
        match db1.findResourceType resource.resource_type_id with
        | none => ([], .error (.valueError
            ("Resource type " ++ toString resource.resource_type_id ++ " not found")))
        | some resource_type =>
          if ¬ get_connector env resource_type.name
              resource.connection_info resource.credentials then
            ([], .error (.valueError
              ("No connector available for resource type: " ++ resource_type.name)))
          else
            match env.user_exists_result uname with
            | .error e => ([UserConnCall.user_exists uname], .error e)
            | .ok true =>
              match env.update_user_result uname with
              | .error e =>
                ([UserConnCall.user_exists uname, UserConnCall.update_user uname], .error e)
              | .ok _ =>
                ([UserConnCall.user_exists uname, UserConnCall.update_user uname], .ok ())
            | .ok false =>
              match env.create_user_result uname with
              | .error e =>
                ([UserConnCall.user_exists uname, UserConnCall.create_user uname], .error e)
              | .ok _ =>
                ([UserConnCall.user_exists uname, UserConnCall.create_user uname], .ok ())
    match attempt with
    | (tr, .ok _) =>
      (db1.updateResourceUsers resource_user_id
        (fun u => { u with sync_status := "synced", last_synced_at := some now,
                           sync_error := none, updated_at := now }),
       tr, .synced)
    | (tr, .error e) =>
      let msg := classify_sync_error e
      (db1.updateResourceUsers resource_user_id
        (fun u => { u with sync_status := "error", sync_error := some msg,
                           updated_at := now }),
       tr, .syncFailed msg)

/-- Pending-user selection of sync_pending_users: rows with sync_status
pending or error, ordered by created_at ascending, limited to the batch
size. -/
def select_pending_users (db : DB) (batch_size : Nat) : List ResourceUserRow :=
  ((db.resource_users.filter
      (fun u => u.sync_status = "pending" ∨ u.sync_status = "error")).insertionSort
    (fun a b => a.created_at ≤ b.created_at)).take batch_size

/-- One cycle of the worker: process each selected row with sync_user,
collecting each row's connector trace and outcome (per-row exceptions
are caught by the loop and do not abort the cycle). -/
def sync_pending_users (db : DB) (batch_size : Nat) (env : UserSyncEnv) (now : Nat) :
    DB × List (Nat × List UserConnCall × SyncOutcome) :=
  (select_pending_users db batch_size).foldl
    (fun acc row =>
      let step := sync_user acc.1 row.id env now
      (step.1, acc.2 ++ [(row.id, step.2.1, step.2.2)]))
    (db, [])

end UserSyncWorker

/-- Discriminator for namespace-deletion calls in a Kubernetes trace. -/
def isDeleteNamespace : ProvisioningController.K8sCall → Bool
  | .deleteNamespace _ => true
  | _ => false

/-! ## Concrete fixtures used by counterexamples and witnesses -/

def connInfoFix : ConnectionInfoRec := ⟨"db.example.com", 5432, "default", "svc", "tcp"⟩

/-- Connector environment in which every call succeeds. -/
def connectorEnvOK : ExternalOpsController.ConnectorEnv :=
  ⟨.ok (), .ok (), true, fun _ => .ok (), .ok "/backups/8/backup.sql", .ok (),
   .ok Metrics.empty, true, .ok ()⟩

/-- Store fixture for the external-ops claims: resource 7 is soft-deleted
(deleted_at set), resource 8 is live; resource_user 21 of resource 8 is
already synced (sync_status not pending). -/
def dbExternal : DB :=
  { teams := [⟨2, "team-two"⟩]
    resource_types := [⟨1, "db-postgresql", "database", true, true, true, true⟩]
    resources :=
      [⟨7, "pg-ext", 1, 2, "active", "partial", some connInfoFix,
        some [("username", "u")], [("a", "1")], true, true, true, false,
        none, none, none, 0, 0, some 99⟩,
       ⟨8, "pg-live", 1, 2, "active", "partial", some connInfoFix,
        some [("username", "u")], [], true, true, true, false,
        none, none, none, 0, 0, none⟩]
    resource_users :=
      [⟨21, 8, "alice", some "pw", ["admin"], "synced", none, none, 0, 0, none⟩]
    backup_jobs := []
    provisioning_jobs := []
    resource_stats := []
    audit_logs := []
    certificates := []
    certificate_authorities := []
    next_backup_job_id := 31
    next_provisioning_job_id := 41
    next_stat_id := 51
    next_audit_id := 61 }

/-- Store fixture for the provisioning failure claim: resource 42 is
pending, full lifecycle, with no cluster binding yet. -/
def dbProvision : DB :=
  { teams := [⟨1, "team-one"⟩]
    resource_types := [⟨1, "db-postgresql", "database", true, true, true, true⟩]
    resources :=
      [⟨42, "pg1", 1, 1, "pending", "full", none, none, [],
        false, false, false, false, none, none, none, 0, 0, none⟩]
    resource_users := []
    backup_jobs := []
    provisioning_jobs := []
    resource_stats := []
    audit_logs := []
    certificates := []
    certificate_authorities := []
    next_backup_job_id := 1
    next_provisioning_job_id := 1
    next_stat_id := 1
    next_audit_id := 1 }

/-- Provisioning environment in which every cluster call succeeds but the
stateful workload never becomes ready within the 300 second budget. -/
def provEnvTimeout : ProvisioningController.ProvEnv :=
  ⟨.ok (), .ok (), .ok [⟨"Service", "pg1"⟩, ⟨"StatefulSet", "pg1"⟩], .ok (), .ok (),
   false, [("username", "user_x"), ("password", "p"), ("database", "db_x")],
   fun s => "enc(" ++ s ++ ")"⟩

/-- Store fixture for the deprovisioning claim: resource 7 is active and
cluster-bound, deleted_at null. -/
def dbDeprov : DB :=
  { teams := [⟨1, "team-one"⟩]
    resource_types := [⟨1, "db-postgresql", "database", true, true, true, true⟩]
    resources :=
      [⟨7, "pg1", 1, 1, "active", "full", some connInfoFix, some [("password", "p")],
        [], false, false, false, true, some "team-1", some "pg1",
        some "StatefulSet", 0, 0, none⟩]
    resource_users := []
    backup_jobs := []
    provisioning_jobs := []
    resource_stats := []
    audit_logs := []
    certificates := []
    certificate_authorities := []
    next_backup_job_id := 1
    next_provisioning_job_id := 11
    next_stat_id := 1
    next_audit_id := 1 }

/-- Deprovisioning environment: the namespace delete succeeds and the
first poll already reports the namespace gone. -/
def deprovEnvGone : ProvisioningController.DeprovEnv :=
  ⟨.ok (), fun _ => false⟩

/-- Store fixture for certificate renewal: certificate 5 (CA 3) is bound
to cluster resource 7 in namespace team-7. -/
def dbCert : DB :=
  { teams := [⟨7, "team-seven"⟩]
    resource_types := [⟨1, "db-postgresql", "database", true, true, true, true⟩]
    resources :=
      [⟨7, "webapi", 1, 7, "active", "full", some connInfoFix, none, [],
        false, false, false, false, some "team-7", some "webapi",
        some "StatefulSet", 0, 0, none⟩]
    resource_users := []
    backup_jobs := []
    provisioning_jobs := []
    resource_stats := []
    audit_logs := []
    certificates :=
      [⟨5, 3, some 7, "webapi.example.com", ["webapi"], [],
        "OLD-CERT-PEM", "OLD-KEY-PEM", 1000, 30, true, 0, none⟩]
    certificate_authorities := [⟨3, "internal-ca"⟩]
    next_backup_job_id := 1
    next_provisioning_job_id := 1
    next_stat_id := 1
    next_audit_id := 71 }

/-- Renewal environment: the CA issues a new certificate but the cluster
secret update fails. -/
def certEnvSecretFail : CertRotationWorker.CertRenewEnv :=
  ⟨.ok ("NEW-CERT-PEM", "NEW-KEY-PEM", 5000), true, .error "boom"⟩

/-- CertificateInfo for certificate 5 as check_expiring_certificates
builds it from dbCert. -/
def certInfoFix : CertRotationWorker.CertificateInfo :=
  ⟨5, some 7, 3, "webapi.example.com", ["webapi"], [], 1000, 30, true,
   some "team-7", some "webapi"⟩

/-- Store fixture for the user-sync worker: resource 8 (db-mariadb,
partial) with four users in mixed sync states and distinct created_at. -/
def dbUserSync : DB :=
  { teams := [⟨2, "team-two"⟩]
    resource_types := [⟨1, "db-mariadb", "database", true, true, true, true⟩]
    resources :=
      [⟨8, "maria-live", 1, 2, "active", "partial", some connInfoFix,
        some [("username", "u")], [], true, true, true, false,
        none, none, none, 0, 0, none⟩]
    resource_users :=
      [⟨21, 8, "alice", some "pw", ["admin"], "pending", none, none, 5, 5, none⟩,
       ⟨22, 8, "bob", some "pw", [], "error", none, some "old", 3, 3, none⟩,
       ⟨23, 8, "carol", some "pw", [], "synced", some 9, none, 1, 1, none⟩,
       ⟨24, 8, "dave", some "pw", [], "pending", none, none, 4, 4, none⟩]
    backup_jobs := []
    provisioning_jobs := []
    resource_stats := []
    audit_logs := []
    certificates := []
    certificate_authorities := []
    next_backup_job_id := 1
    next_provisioning_job_id := 1
    next_stat_id := 1
    next_audit_id := 1 }

/-- User-sync environment: the connector reports the user absent and all
calls succeed. -/
def userSyncEnvOK : UserSyncWorker.UserSyncEnv :=
  ⟨true, fun _ => .ok false, fun _ => .ok (), fun _ => .ok ()⟩

/-! ## Helper lemmas: risk evaluators -/

theorem riskRank_low : riskRank "low" = 0 := rfl

theorem riskRank_medium : riskRank "medium" = 1 := rfl

theorem riskRank_high : riskRank "high" = 2 := rfl

theorem riskRank_critical : riskRank "critical" = 3 := rfl

theorem ext_stepDisk_level (m : Metrics) (st : String × List String) (h : IsLevel st.1) :
    riskRank (ExternalOpsController.stepDisk m st).1 = max (riskRank st.1) (extSevDisk m) ∧
      IsLevel (ExternalOpsController.stepDisk m st).1 := by
  obtain ⟨l, fs⟩ := st
  rcases h with h | h | h | h <;> subst h <;>
    cases hd : m.disk_usage_percent <;>
      simp only [ExternalOpsController.stepDisk, extSevDisk, hd] <;>
      first
        | (split_ifs <;> simp_all [riskRank, IsLevel])
        | simp_all [riskRank, IsLevel]

theorem ext_stepMem_level (m : Metrics) (st : String × List String) (h : IsLevel st.1) :
    riskRank (ExternalOpsController.stepMem m st).1 = max (riskRank st.1) (extSevMem m) ∧
      IsLevel (ExternalOpsController.stepMem m st).1 := by
  obtain ⟨l, fs⟩ := st
  rcases h with h | h | h | h <;> subst h <;>
    cases hd : m.memory_usage_percent <;>
      simp only [ExternalOpsController.stepMem, extSevMem, hd] <;>
      first
        | (split_ifs <;> simp_all [riskRank, IsLevel])
        | simp_all [riskRank, IsLevel]

theorem ext_stepConn_level (m : Metrics) (st : String × List String) (h : IsLevel st.1) :
    riskRank (ExternalOpsController.stepConn m st).1 = max (riskRank st.1) (extSevConn m) ∧
      IsLevel (ExternalOpsController.stepConn m st).1 := by
  obtain ⟨l, fs⟩ := st
  rcases h with h | h | h | h <;> subst h <;>
    rcases hd : m.connections with _ | (⟨act, tot⟩ | _) <;>
      simp only [ExternalOpsController.stepConn, extSevConn, hd] <;>
      first
        | (split_ifs <;> simp_all [riskRank, IsLevel])
        | simp_all [riskRank, IsLevel]

theorem ext_stepTemp_level (m : Metrics) (st : String × List String) (h : IsLevel st.1) :
    riskRank (ExternalOpsController.stepTemp m st).1 = max (riskRank st.1) (extSevTemp m) ∧
      IsLevel (ExternalOpsController.stepTemp m st).1 := by
  obtain ⟨l, fs⟩ := st
  rcases h with h | h | h | h <;> subst h <;>
    rcases hd : m.temp_files with _ | (⟨sz⟩ | _) <;>
      simp only [ExternalOpsController.stepTemp, extSevTemp, hd] <;>
      first
        | (split_ifs <;> simp_all [riskRank, IsLevel])
        | simp_all [riskRank, IsLevel]

theorem ext_stepRepl_level (m : Metrics) (st : String × List String) (h : IsLevel st.1) :
    riskRank (ExternalOpsController.stepRepl m st).1 = max (riskRank st.1) (extSevRepl m) ∧
      IsLevel (ExternalOpsController.stepRepl m st).1 := by
  obtain ⟨l, fs⟩ := st
  rcases h with h | h | h | h <;> subst h <;>
    rcases hd : m.replication_lag_seconds with _ | (_ | lag) <;>
      simp only [ExternalOpsController.stepRepl, extSevRepl, hd] <;>
      first
        | (split_ifs <;> simp_all [riskRank, IsLevel])
        | simp_all [riskRank, IsLevel]

/-- The external-ops risk level is the maximum severity over the five
rules the evaluator applies. -/
theorem ext_rank_eq (m : Metrics) (t : String) :
    riskRank (ExternalOpsController.calculate_risk_level m t).1 =
      max (max (max (max (extSevDisk m) (extSevMem m)) (extSevConn m)) (extSevTemp m))
        (extSevRepl m) := by
  have h1 := ext_stepDisk_level m ("low", ([] : List String)) (Or.inl rfl)
  have h2 := ext_stepMem_level m _ h1.2
  have h3 := ext_stepConn_level m _ h2.2
  have h4 := ext_stepTemp_level m _ h3.2
  have h5 := ext_stepRepl_level m _ h4.2
  unfold ExternalOpsController.calculate_risk_level
  rw [h5.1, h4.1, h3.1, h2.1, h1.1, riskRank_low, Nat.zero_max]

theorem ext_level_isLevel (m : Metrics) (t : String) :
    IsLevel (ExternalOpsController.calculate_risk_level m t).1 := by
  have h1 := ext_stepDisk_level m ("low", ([] : List String)) (Or.inl rfl)
  have h2 := ext_stepMem_level m _ h1.2
  have h3 := ext_stepConn_level m _ h2.2
  have h4 := ext_stepTemp_level m _ h3.2
  have h5 := ext_stepRepl_level m _ h4.2
  unfold ExternalOpsController.calculate_risk_level
  exact h5.2

theorem stats_stepDisk_level (m : Metrics) (rf : StatsCollector.RiskFactors) :
    riskRank (StatsCollector.stepDisk m ("low", rf)).1 = statsSevDisk m ∧
      IsLevel (StatsCollector.stepDisk m ("low", rf)).1 := by
  cases hd : m.disk_usage_percent <;>
    simp only [StatsCollector.stepDisk, statsSevDisk, hd] <;>
    first
      | (split_ifs <;> simp_all [riskRank, IsLevel])
      | simp_all [riskRank, IsLevel]

theorem stats_stepMem_level (m : Metrics) (st : String × StatsCollector.RiskFactors)
    (h : IsLevel st.1) :
    riskRank (StatsCollector.stepMem m st).1 = max (riskRank st.1) (statsSevMem m) ∧
      IsLevel (StatsCollector.stepMem m st).1 := by
  obtain ⟨l, rf⟩ := st
  rcases h with h | h | h | h <;> subst h <;>
    cases hd : m.memory_percent <;>
      simp only [StatsCollector.stepMem, statsSevMem, hd] <;>
      first
        | (split_ifs <;> simp_all [riskRank, IsLevel])
        | simp_all [riskRank, IsLevel]

theorem stats_stepConn_level (m : Metrics) (st : String × StatsCollector.RiskFactors)
    (h : IsLevel st.1) :
    riskRank (StatsCollector.stepConn m st).1 = max (riskRank st.1) (statsSevConn m) ∧
      IsLevel (StatsCollector.stepConn m st).1 := by
  obtain ⟨l, rf⟩ := st
  rcases h with h | h | h | h <;> subst h <;>
    rcases hd : m.connections with _ | (⟨act, tot⟩ | _) <;>
      simp only [StatsCollector.stepConn, statsSevConn, hd] <;>
      first
        | (split_ifs <;> simp_all [riskRank, IsLevel])
        | simp_all [riskRank, IsLevel]

theorem stats_stepCpu_level (m : Metrics) (st : String × StatsCollector.RiskFactors)
    (h : IsLevel st.1) :
    riskRank (StatsCollector.stepCpu m st).1 = max (riskRank st.1) (statsSevCpu m) ∧
      IsLevel (StatsCollector.stepCpu m st).1 := by
  obtain ⟨l, rf⟩ := st
  rcases h with h | h | h | h <;> subst h <;>
    cases hd : m.cpu_percent <;>
      simp only [StatsCollector.stepCpu, statsSevCpu, hd] <;>
      first
        | (split_ifs <;> simp_all [riskRank, IsLevel])
        | simp_all [riskRank, IsLevel]

/-- The stats-collector risk level is the maximum severity over the four
rules that evaluator applies. -/
theorem stats_rank_eq (m : Metrics) :
    riskRank (StatsCollector.calculate_risk_level m).1 =
      max (max (max (statsSevDisk m) (statsSevMem m)) (statsSevConn m)) (statsSevCpu m) := by
  have h1 := stats_stepDisk_level m StatsCollector.RiskFactors.empty
  have h2 := stats_stepMem_level m _ h1.2
  have h3 := stats_stepConn_level m _ h2.2
  have h4 := stats_stepCpu_level m _ h3.2
  unfold StatsCollector.calculate_risk_level
  rw [h4.1, h3.1, h2.1, h1.1]

theorem stats_level_isLevel (m : Metrics) :
    IsLevel (StatsCollector.calculate_risk_level m).1 := by
  have h1 := stats_stepDisk_level m StatsCollector.RiskFactors.empty
  have h2 := stats_stepMem_level m _ h1.2
  have h3 := stats_stepConn_level m _ h2.2
  have h4 := stats_stepCpu_level m _ h3.2
  unfold StatsCollector.calculate_risk_level
  exact h4.2

theorem extSevDisk_congr {m1 m2 : Metrics}
    (h : m1.disk_usage_percent = m2.disk_usage_percent) :
    extSevDisk m1 = extSevDisk m2 := by unfold extSevDisk; rw [h]

theorem extSevMem_congr {m1 m2 : Metrics}
    (h : m1.memory_usage_percent = m2.memory_usage_percent) :
    extSevMem m1 = extSevMem m2 := by unfold extSevMem; rw [h]

theorem extSevConn_congr {m1 m2 : Metrics}
    (h : m1.connections = m2.connections) :
    extSevConn m1 = extSevConn m2 := by unfold extSevConn; rw [h]

theorem extSevTemp_congr {m1 m2 : Metrics}
    (h : m1.temp_files = m2.temp_files) :
    extSevTemp m1 = extSevTemp m2 := by unfold extSevTemp; rw [h]

theorem extSevRepl_congr {m1 m2 : Metrics}
    (h : m1.replication_lag_seconds = m2.replication_lag_seconds) :
    extSevRepl m1 = extSevRepl m2 := by unfold extSevRepl; rw [h]

theorem statsSevDisk_congr {m1 m2 : Metrics}
    (h : m1.disk_usage_percent = m2.disk_usage_percent) :
    statsSevDisk m1 = statsSevDisk m2 := by unfold statsSevDisk; rw [h]

theorem statsSevMem_congr {m1 m2 : Metrics}
    (h : m1.memory_percent = m2.memory_percent) :
    statsSevMem m1 = statsSevMem m2 := by unfold statsSevMem; rw [h]

theorem statsSevConn_congr {m1 m2 : Metrics}
    (h : m1.connections = m2.connections) :
    statsSevConn m1 = statsSevConn m2 := by unfold statsSevConn; rw [h]

theorem statsSevCpu_congr {m1 m2 : Metrics}
    (h : m1.cpu_percent = m2.cpu_percent) :
    statsSevCpu m1 = statsSevCpu m2 := by unfold statsSevCpu; rw [h]

theorem extSevMem_le (m : Metrics) : extSevMem m ≤ 2 := by
  cases hd : m.memory_usage_percent <;> simp only [extSevMem, hd] <;>
    first | omega | (split_ifs <;> omega)

theorem extSevConn_le (m : Metrics) : extSevConn m ≤ 1 := by
  rcases hd : m.connections with _ | (⟨act, tot⟩ | _) <;>
    simp only [extSevConn, hd] <;>
    first | omega | (split_ifs <;> omega)

theorem extSevTemp_le (m : Metrics) : extSevTemp m ≤ 1 := by
  rcases hd : m.temp_files with _ | (⟨sz⟩ | _) <;>
    simp only [extSevTemp, hd] <;>
    first | omega | (split_ifs <;> omega)

theorem extSevRepl_le (m : Metrics) : extSevRepl m ≤ 1 := by
  rcases hd : m.replication_lag_seconds with _ | (_ | lag) <;>
    simp only [extSevRepl, hd] <;>
    first | omega | (split_ifs <;> omega)

/-- On the four level strings, riskRank is injective. -/
theorem isLevel_rank_inj {s1 s2 : String} (h1 : IsLevel s1) (h2 : IsLevel s2)
    (h : riskRank s1 = riskRank s2) : s1 = s2 := by
  rcases h1 with h1 | h1 | h1 | h1 <;> rcases h2 with h2 | h2 | h2 | h2 <;>
    subst h1 <;> subst h2 <;> first | rfl | exact absurd h (by decide)

theorem ext_stepMem_factors (m : Metrics) (st : String × List String) :
    st.2 ⊆ (ExternalOpsController.stepMem m st).2 := by
  obtain ⟨l, fs⟩ := st
  cases hd : m.memory_usage_percent <;>
    simp only [ExternalOpsController.stepMem, hd] <;>
    first
      | exact List.Subset.refl _
      | (split_ifs <;>
          first | exact List.Subset.refl _ | exact List.subset_append_left _ _)

theorem ext_stepConn_factors (m : Metrics) (st : String × List String) :
    st.2 ⊆ (ExternalOpsController.stepConn m st).2 := by
  obtain ⟨l, fs⟩ := st
  rcases hd : m.connections with _ | (⟨act, tot⟩ | _) <;>
    simp only [ExternalOpsController.stepConn, hd] <;>
    first
      | exact List.Subset.refl _
      | (split_ifs <;>
          first | exact List.Subset.refl _ | exact List.subset_append_left _ _)

theorem ext_stepTemp_factors (m : Metrics) (st : String × List String) :
    st.2 ⊆ (ExternalOpsController.stepTemp m st).2 := by
  obtain ⟨l, fs⟩ := st
  rcases hd : m.temp_files with _ | (⟨sz⟩ | _) <;>
    simp only [ExternalOpsController.stepTemp, hd] <;>
    first
      | exact List.Subset.refl _
      | (split_ifs <;>
          first | exact List.Subset.refl _ | exact List.subset_append_left _ _)

theorem ext_stepRepl_factors (m : Metrics) (st : String × List String) :
    st.2 ⊆ (ExternalOpsController.stepRepl m st).2 := by
  obtain ⟨l, fs⟩ := st
  rcases hd : m.replication_lag_seconds with _ | (_ | lag) <;>
    simp only [ExternalOpsController.stepRepl, hd] <;>
    first
      | exact List.Subset.refl _
      | (split_ifs <;>
          first | exact List.Subset.refl _ | exact List.subset_append_left _ _)

/-! ## Claims C3, C4, C5: the risk evaluators -/

/-- C3 counterexample: the risk evaluator is not a single shared pure
function.  On the metrics map with only cpu_percent 90,
ExternalOpsController._calculate_risk_level returns low while
StatsCollector.calculate_risk_level returns medium. -/
theorem risk_evaluators_differ_on_cpu :
    (ExternalOpsController.calculate_risk_level
      { Metrics.empty with cpu_percent := some (.intVal 90) } "db-postgresql").1 = "low" ∧
    (StatsCollector.calculate_risk_level
      { Metrics.empty with cpu_percent := some (.intVal 90) }).1 = "medium" ∧
    ("low" : String) ≠ "medium" := by
  decide

/-- C3 amended: the two risk evaluators are distinct functions (they
disagree on the CPU, memory, temp-space and replication-lag axes), but on
every metrics map whose only observation is disk_usage_percent they
compute the same risk level. -/
theorem risk_evaluators_agree_on_disk (v : Option PyNum) (t : String) :
    (ExternalOpsController.calculate_risk_level
      { Metrics.empty with disk_usage_percent := v } t).1 =
    (StatsCollector.calculate_risk_level
      { Metrics.empty with disk_usage_percent := v }).1 := by
  apply isLevel_rank_inj (ext_level_isLevel _ _) (stats_level_isLevel _)
  rw [ext_rank_eq, stats_rank_eq]
  have hd : extSevDisk { Metrics.empty with disk_usage_percent := v } =
      statsSevDisk { Metrics.empty with disk_usage_percent := v } := by
    unfold extSevDisk statsSevDisk; rfl
  have e1 : extSevMem { Metrics.empty with disk_usage_percent := v } = 0 := rfl
  have e2 : extSevConn { Metrics.empty with disk_usage_percent := v } = 0 := rfl
  have e3 : extSevTemp { Metrics.empty with disk_usage_percent := v } = 0 := rfl
  have e4 : extSevRepl { Metrics.empty with disk_usage_percent := v } = 0 := rfl
  have s2 : statsSevMem { Metrics.empty with disk_usage_percent := v } = 0 := rfl
  have s3 : statsSevConn { Metrics.empty with disk_usage_percent := v } = 0 := rfl
  have s4 : statsSevCpu { Metrics.empty with disk_usage_percent := v } = 0 := rfl
  rw [hd, e1, e2, e3, e4, s2, s3, s4]
  simp

/-- C4: for every metrics map containing disk_usage_percent the
external-ops risk evaluator returns level critical with factor
"Disk usage critical: {v}%" when v > 95, and level high with factor
"Disk usage high: {v}%" when 85 < v ≤ 95; in particular the storage
normalization of {used_bytes: 96000, total_bytes: 100000} derives
disk_usage_percent 96.0 and evaluates to
("critical", ["Disk usage critical: 96.0%"]). -/
theorem risk_disk_thresholds :
    (∀ (m : Metrics) (v : PyNum) (t : String), m.disk_usage_percent = some v →
      ((95 < v.toRat →
        (ExternalOpsController.calculate_risk_level m t).1 = "critical" ∧
        ("Disk usage critical: " ++ pyNumStr v ++ "%") ∈
          (ExternalOpsController.calculate_risk_level m t).2) ∧
       (85 < v.toRat → v.toRat ≤ 95 →
        (ExternalOpsController.calculate_risk_level m t).1 = "high" ∧
        ("Disk usage high: " ++ pyNumStr v ++ "%") ∈
          (ExternalOpsController.calculate_risk_level m t).2))) ∧
    (StatsCollector.normalize_storage_metrics
        ⟨some (.intVal 96000), none, some (.intVal 100000)⟩).disk_usage_percent
      = some (.floatVal 96) ∧
    ExternalOpsController.calculate_risk_level
      (StatsCollector.normalize_storage_metrics
        ⟨some (.intVal 96000), none, some (.intVal 100000)⟩).toMetrics "storage-ceph"
      = ("critical", ["Disk usage critical: 96.0%"]) := by
  have hnorm : (StatsCollector.normalize_storage_metrics
      ⟨some (.intVal 96000), none, some (.intVal 100000)⟩).disk_usage_percent
      = some (.floatVal 96) := by
    simp [StatsCollector.normalize_storage_metrics, PyNum.toRat]
    norm_num
  refine ⟨?_, hnorm, by
    show ExternalOpsController.calculate_risk_level
      { Metrics.empty with
        disk_usage_percent := (StatsCollector.normalize_storage_metrics
          ⟨some (.intVal 96000), none, some (.intVal 100000)⟩).disk_usage_percent } _ = _
    rw [hnorm]
    decide⟩
  intro m v t hm
  have hmem :
      ∀ f, f ∈ (ExternalOpsController.stepDisk m ("low", ([] : List String))).2 →
        f ∈ (ExternalOpsController.calculate_risk_level m t).2 := by
    intro f hf
    unfold ExternalOpsController.calculate_risk_level
    exact ext_stepRepl_factors m _ (ext_stepTemp_factors m _
      (ext_stepConn_factors m _ (ext_stepMem_factors m _ hf)))
  constructor
  · intro hv
    have hsev : extSevDisk m = 3 := by
      simp only [extSevDisk, hm, if_pos hv]
    constructor
    · apply isLevel_rank_inj (ext_level_isLevel m t) (Or.inr (Or.inr (Or.inr rfl)))
      rw [ext_rank_eq, riskRank_critical, hsev]
      have b1 := extSevMem_le m
      have b2 := extSevConn_le m
      have b3 := extSevTemp_le m
      have b4 := extSevRepl_le m
      omega
    · apply hmem
      simp [ExternalOpsController.stepDisk, hm, if_pos hv]
  · intro hv85 hv95
    have hsev : extSevDisk m = 2 := by
      simp only [extSevDisk, hm]
      rw [if_neg (by exact not_lt.mpr hv95), if_pos hv85]
    constructor
    · apply isLevel_rank_inj (ext_level_isLevel m t) (Or.inr (Or.inr (Or.inl rfl)))
      rw [ext_rank_eq, riskRank_high, hsev]
      have b1 := extSevMem_le m
      have b2 := extSevConn_le m
      have b3 := extSevTemp_le m
      have b4 := extSevRepl_le m
      omega
    · apply hmem
      have hnot : ¬ (95 < v.toRat) := not_lt.mpr hv95
      simp [ExternalOpsController.stepDisk, hm, if_neg hnot, if_pos hv85]

/-- C4 witness: the theorem applied at the map with disk_usage_percent
96.0. -/
theorem risk_disk_thresholds_witness :
    (95 : ℚ) < (PyNum.floatVal 96).toRat ∧
    (ExternalOpsController.calculate_risk_level
      { Metrics.empty with disk_usage_percent := some (.floatVal 96) } "storage-ceph").1
      = "critical" ∧
    ("Disk usage critical: " ++ pyNumStr (.floatVal 96) ++ "%") ∈
      (ExternalOpsController.calculate_risk_level
        { Metrics.empty with disk_usage_percent := some (.floatVal 96) } "storage-ceph").2 :=
  ⟨by decide,
   ((risk_disk_thresholds.1
      { Metrics.empty with disk_usage_percent := some (.floatVal 96) }
      (.floatVal 96) "storage-ceph" rfl).1 (by decide)).1,
   ((risk_disk_thresholds.1
      { Metrics.empty with disk_usage_percent := some (.floatVal 96) }
      (.floatVal 96) "storage-ceph" rfl).1 (by decide)).2⟩

/-- C5: both risk evaluators are monotone along each observation axis:
if two metrics maps differ only in one observation and the second map
triggers a rule of equal or greater severity on that axis, the computed
level does not decrease (in the order low < medium < high < critical). -/
theorem risk_level_monotone (o : Obs) (m1 m2 : Metrics) (t : String)
    (hdiff : differOnlyAt o m1 m2)
    (hext : extObsSev o m1 ≤ extObsSev o m2)
    (hstats : statsObsSev o m1 ≤ statsObsSev o m2) :
    riskRank (ExternalOpsController.calculate_risk_level m1 t).1 ≤
      riskRank (ExternalOpsController.calculate_risk_level m2 t).1 ∧
    riskRank (StatsCollector.calculate_risk_level m1).1 ≤
      riskRank (StatsCollector.calculate_risk_level m2).1 := by
  cases o with
  | disk =>
    obtain ⟨e1, e2, e3, e4, e5, e6⟩ := hdiff
    simp only [extObsSev] at hext
    simp only [statsObsSev] at hstats
    constructor
    · rw [ext_rank_eq, ext_rank_eq]
      exact max_le_max (max_le_max (max_le_max (max_le_max hext
        (extSevMem_congr e1).le) (extSevConn_congr e3).le)
        (extSevTemp_congr e4).le) (extSevRepl_congr e5).le
    · rw [stats_rank_eq, stats_rank_eq]
      exact max_le_max (max_le_max (max_le_max hstats
        (statsSevMem_congr e2).le) (statsSevConn_congr e3).le)
        (statsSevCpu_congr e6).le
  | memUsage =>
    obtain ⟨e1, e2, e3, e4, e5, e6⟩ := hdiff
    simp only [extObsSev] at hext
    constructor
    · rw [ext_rank_eq, ext_rank_eq]
      exact max_le_max (max_le_max (max_le_max (max_le_max
        (extSevDisk_congr e1).le hext) (extSevConn_congr e3).le)
        (extSevTemp_congr e4).le) (extSevRepl_congr e5).le
    · rw [stats_rank_eq, stats_rank_eq]
      exact le_of_eq (by rw [statsSevDisk_congr e1, statsSevMem_congr e2,
        statsSevConn_congr e3, statsSevCpu_congr e6])
  | memPercent =>
    obtain ⟨e1, e2, e3, e4, e5, e6⟩ := hdiff
    simp only [statsObsSev] at hstats
    constructor
    · rw [ext_rank_eq, ext_rank_eq]
      exact le_of_eq (by rw [extSevDisk_congr e1, extSevMem_congr e2,
        extSevConn_congr e3, extSevTemp_congr e4, extSevRepl_congr e5])
    · rw [stats_rank_eq, stats_rank_eq]
      exact max_le_max (max_le_max (max_le_max (statsSevDisk_congr e1).le
        hstats) (statsSevConn_congr e3).le) (statsSevCpu_congr e6).le
  | conns =>
    obtain ⟨e1, e2, e3, e4, e5, e6⟩ := hdiff
    simp only [extObsSev] at hext
    simp only [statsObsSev] at hstats
    constructor
    · rw [ext_rank_eq, ext_rank_eq]
      exact max_le_max (max_le_max (max_le_max (max_le_max
        (extSevDisk_congr e1).le (extSevMem_congr e2).le) hext)
        (extSevTemp_congr e4).le) (extSevRepl_congr e5).le
    · rw [stats_rank_eq, stats_rank_eq]
      exact max_le_max (max_le_max (max_le_max (statsSevDisk_congr e1).le
        (statsSevMem_congr e3).le) hstats) (statsSevCpu_congr e6).le
  | temp =>
    obtain ⟨e1, e2, e3, e4, e5, e6⟩ := hdiff
    simp only [extObsSev] at hext
    constructor
    · rw [ext_rank_eq, ext_rank_eq]
      exact max_le_max (max_le_max (max_le_max (max_le_max
        (extSevDisk_congr e1).le (extSevMem_congr e2).le)
        (extSevConn_congr e4).le) hext) (extSevRepl_congr e5).le
    · rw [stats_rank_eq, stats_rank_eq]
      exact le_of_eq (by rw [statsSevDisk_congr e1, statsSevMem_congr e3,
        statsSevConn_congr e4, statsSevCpu_congr e6])
  | repl =>
    obtain ⟨e1, e2, e3, e4, e5, e6⟩ := hdiff
    simp only [extObsSev] at hext
    constructor
    · rw [ext_rank_eq, ext_rank_eq]
      exact max_le_max (max_le_max (max_le_max (max_le_max
        (extSevDisk_congr e1).le (extSevMem_congr e2).le)
        (extSevConn_congr e4).le) (extSevTemp_congr e5).le) hext
    · rw [stats_rank_eq, stats_rank_eq]
      exact le_of_eq (by rw [statsSevDisk_congr e1, statsSevMem_congr e3,
        statsSevConn_congr e4, statsSevCpu_congr e6])
  | cpu =>
    obtain ⟨e1, e2, e3, e4, e5, e6⟩ := hdiff
    simp only [statsObsSev] at hstats
    constructor
    · rw [ext_rank_eq, ext_rank_eq]
      exact le_of_eq (by rw [extSevDisk_congr e1, extSevMem_congr e2,
        extSevConn_congr e4, extSevTemp_congr e5, extSevRepl_congr e6])
    · rw [stats_rank_eq, stats_rank_eq]
      exact max_le_max (max_le_max (max_le_max (statsSevDisk_congr e1).le
        (statsSevMem_congr e3).le) (statsSevConn_congr e4).le) hstats

/-! ## Helper lemmas: store operations -/

theorem find?_map_pres {α : Type} (g : α → α) (p : α → Bool)
    (hp : ∀ a, p (g a) = p a) :
    ∀ l : List α, (l.map g).find? p = (l.find? p).map g := by
  intro l
  induction l with
  | nil => rfl
  | cons a l ih =>
    simp only [List.map_cons, List.find?_cons, hp a]
    cases p a <;> simp [ih]

theorem findResource_update (db : DB) (i j : Nat) (f : ResourceRow → ResourceRow)
    (hf : ∀ r, (f r).id = r.id) :
    (db.updateResources i f).findResource j =
      (db.findResource j).map (fun r => if r.id = i then f r else r) := by
  unfold DB.updateResources DB.findResource
  refine find?_map_pres _ _ (fun r => ?_) _
  by_cases h : r.id = i <;> simp [h, hf]

theorem findResourceUser_update (db : DB) (i j : Nat)
    (f : ResourceUserRow → ResourceUserRow) (hf : ∀ r, (f r).id = r.id) :
    (db.updateResourceUsers i f).findResourceUser j =
      (db.findResourceUser j).map (fun r => if r.id = i then f r else r) := by
  unfold DB.updateResourceUsers DB.findResourceUser
  refine find?_map_pres _ _ (fun r => ?_) _
  by_cases h : r.id = i <;> simp [h, hf]

theorem update_append_fresh {α : Type} (idf : α → Nat) (i : Nat) (f : α → α)
    (a : α) (ha : idf a = i) :
    ∀ l : List α, (∀ x ∈ l, idf x ≠ i) →
      (l ++ [a]).map (fun r => if idf r = i then f r else r) = l ++ [f a] := by
  intro l
  induction l with
  | nil => intro _; simp [ha]
  | cons b l ih =>
    intro h
    have hb : idf b ≠ i := h b (List.mem_cons_self _ _)
    simp only [List.cons_append, List.map_cons, if_neg hb]
    rw [ih (fun x hx => h x (List.mem_cons_of_mem _ hx))]

theorem waitPolls_length_le (env : ProvisioningController.DeprovEnv) (ns : String) :
    ∀ fuel i, ((ProvisioningController.waitPolls env ns i fuel).2).length ≤ fuel := by
  intro fuel
  induction fuel with
  | zero => intro i; simp [ProvisioningController.waitPolls]
  | succ n ih =>
    intro i
    simp only [ProvisioningController.waitPolls]
    split_ifs with h
    · simpa using ih (i + 1)
    · simp

/-! ## Claims C1, C2, C9: provisioning rollback, deprovisioning, soft-delete -/

/-- C1 evaluation at the failing input: a fresh provision of pending
resource 42 (no stored cluster binding) that times out waiting for
readiness marks the resource error, records one failed provision job with
a non-empty error message, and re-raises the original timeout error, but
the recorded Kubernetes trace contains no namespace deletion: the rollback
guard reads k8s_namespace from the store row, which is only written on
success, so the claimed best-effort namespace deletion never happens. -/
theorem provision_timeout_skips_namespace_rollback :
    ((ProvisioningController.provision_resource dbProvision 42 9 provEnvTimeout 100).1.findResource
        42).map (fun r => r.status) = some "error" ∧
    (ProvisioningController.provision_resource dbProvision 42 9 provEnvTimeout 100).1.provisioning_jobs =
      [⟨1, 42, "provision", "failed", some 100, some 100,
        some "Provisioning failed: StatefulSet pg1 failed to become ready within 300 seconds",
        some "Provisioning failed: StatefulSet pg1 failed to become ready within 300 seconds",
        some 9, 100⟩] ∧
    ("Provisioning failed: StatefulSet pg1 failed to become ready within 300 seconds" ≠ "") ∧
    (ProvisioningController.provision_resource dbProvision 42 9 provEnvTimeout 100).2.2 =
      .error "StatefulSet pg1 failed to become ready within 300 seconds" ∧
    ((ProvisioningController.provision_resource dbProvision 42 9 provEnvTimeout 100).2.1.filter
        isDeleteNamespace) = [] := by
  refine ⟨by decide, by decide, by decide, by decide, by decide⟩

/-- C2 counterexample: deprovisioning bound resource 7 of dbDeprov ends
with status deleted but deleted_at still null, against the claimed
"deletedAt set to the current time". -/
theorem deprovision_leaves_deletedAt_null :
    ((ProvisioningController.deprovision_resource dbDeprov 7 1 deprovEnvGone 50).1.findResource
        7).map (fun r => r.deleted_at) = some none ∧
    ((ProvisioningController.deprovision_resource dbDeprov 7 1 deprovEnvGone 50).1.findResource
        7).map (fun r => r.status) = some "deleted" := by
  refine ⟨by decide, by decide⟩

/-- C2 amended: for every resource with a non-null cluster namespace whose
namespace deletion succeeds, deprovision_resource deletes the namespace,
polls for its disappearance at most 30 times (60 s at one poll per 2 s),
leaves the resource with status deleted and the cluster binding cleared,
appends a completed deprovision job, and returns the deleted status.  The
deleted_at column keeps its previous value: the source never writes it. -/
theorem deprovision_clears_binding_without_deletedAt
    (db : DB) (rid created_by : Nat) (env : ProvisioningController.DeprovEnv)
    (now : Nat) (r : ResourceRow) (ns : String)
    (hres : db.findResource rid = some r)
    (hns : r.k8s_namespace = some ns)
    (hdel : env.delete_namespace_result = .ok ()) :
    (ProvisioningController.deprovision_resource db rid created_by env now).2.1 =
      ProvisioningController.K8sCall.deleteNamespace ns ::
        (ProvisioningController.wait_for_namespace_deletion env ns).2 ∧
    ((ProvisioningController.wait_for_namespace_deletion env ns).2).length ≤ 30 ∧
    (ProvisioningController.deprovision_resource db rid created_by env now).1.findResource rid =
      some { r with status := "deleted", k8s_namespace := none,
                    k8s_resource_name := none, updated_at := now } ∧
    (ProvisioningController.deprovision_resource db rid created_by env now).1.provisioning_jobs =
      db.provisioning_jobs ++
        [⟨db.next_provisioning_job_id, rid, "deprovision", "completed", some now,
          some now, some ("Successfully deprovisioned resource " ++ r.name), none,
          some created_by, now⟩] ∧
    (ProvisioningController.deprovision_resource db rid created_by env now).2.2 =
      .ok ⟨rid, "deleted", none, none⟩ := by
  have hid : r.id = rid := by
    have := List.find?_some hres
    simpa using this
  refine ⟨?_, waitPolls_length_le env ns 30 0, ?_, ?_, ?_⟩
  · simp only [ProvisioningController.deprovision_resource, hres, hns, hdel]
  · simp only [ProvisioningController.deprovision_resource, hres, hns, hdel]
    show (db.updateResources rid (fun r =>
      { r with status := "deleted", k8s_namespace := none,
               k8s_resource_name := none, updated_at := now })).findResource rid = _
    rw [findResource_update db rid rid (fun r =>
      { r with status := "deleted", k8s_namespace := none,
               k8s_resource_name := none, updated_at := now }) (fun _ => rfl), hres]
    simp [hid]
  · simp only [ProvisioningController.deprovision_resource, hres, hns, hdel]
    show (db.updateResources rid _).provisioning_jobs ++ _ = _
    rfl
  · simp only [ProvisioningController.deprovision_resource, hres, hns, hdel]

/-- C2 witness: the amended theorem applied to dbDeprov. -/
theorem deprovision_clears_binding_without_deletedAt_witness :
    (ProvisioningController.deprovision_resource dbDeprov 7 1 deprovEnvGone 50).2.2 =
      .ok ⟨7, "deleted", none, none⟩ :=
  (deprovision_clears_binding_without_deletedAt dbDeprov 7 1 deprovEnvGone 50
    ⟨7, "pg1", 1, 1, "active", "full", some connInfoFix, some [("password", "p")],
     [], false, false, false, true, some "team-1", some "pg1",
     some "StatefulSet", 0, 0, none⟩ "team-1" (by decide) rfl rfl).2.2.2.2

theorem backup_update_update_append_fresh (i : Nat)
    (f1 f2 : BackupJobRow → BackupJobRow) (a : BackupJobRow)
    (ha : a.id = i) (hf1 : ∀ r, (f1 r).id = r.id) :
    ∀ l : List BackupJobRow, (∀ x ∈ l, x.id ≠ i) →
      ((l ++ [a]).map (fun r => if r.id = i then f1 r else r)).map
        (fun r => if r.id = i then f2 r else r) = l ++ [f2 (f1 a)] := by
  intro l
  induction l with
  | nil =>
    intro _
    simp only [List.nil_append, List.map_cons, List.map_nil, if_pos ha]
    rw [if_pos (by rw [hf1]; exact ha)]
  | cons b l ih =>
    intro h
    have hb : b.id ≠ i := h b (List.mem_cons_self _ _)
    simp only [List.cons_append, List.map_cons, if_neg hb]
    rw [ih (fun x hx => h x (List.mem_cons_of_mem _ hx))]

/-! ## Claims C6, C7: certificate renewal rollback, backup job lifecycle -/

/-- C6: when the cluster TLS-secret update fails after the CA has issued a
new certificate, _renew_certificate_with_recovery returns the store
untouched - the certificate row keeps its old PEM, private key and
valid_until - and raises CertificateRenewalError, which the rotation
cycle reports through a renewal_failed notification. -/
theorem cert_renewal_rolls_back_on_secret_failure
    (db : DB) (ci : CertRotationWorker.CertificateInfo)
    (env : CertRotationWorker.CertRenewEnv) (now : Nat)
    (cert : CertificateRow) (ca : CARow) (res : ResourceRow)
    (nc nk : String) (vu : Nat) (e : String) (rid : Nat) (ns nm ns2 nm2 : String)
    (hcert : db.findCertificate ci.cert_id = some cert)
    (hca : db.findCA cert.ca_id = some ca)
    (hrenew : env.renew_result = .ok (nc, nk, vu))
    (hns : ci.k8s_namespace = some ns) (hnm : ci.k8s_resource_name = some nm)
    (hrid : ci.resource_id = some rid)
    (hres : db.findResource rid = some res)
    (hresns : res.k8s_namespace = some ns2) (hresnm : res.k8s_resource_name = some nm2)
    (hk8s : env.k8s_client_present = true)
    (happly : env.apply_manifest_result = .error e) :
    CertRotationWorker.renew_certificate_with_recovery db ci env now =
      (db, [], .error (.certificateRenewalError
        ("K8s update failed: " ++ ("Secret update failed: " ++ e)))) ∧
    (CertRotationWorker.renew_certificate_with_recovery db ci env now).1.findCertificate
        ci.cert_id = some cert ∧
    CertRotationWorker.rotation_handle_cert db ci env now = (db, ["renewal_failed"]) := by
  have h1 : CertRotationWorker.renew_certificate db env ci.cert_id = .ok (nc, nk, vu) := by
    simp [CertRotationWorker.renew_certificate, hcert, hca, hrenew]
  have h2 : CertRotationWorker.update_k8s_secret env res =
      .error ("Secret update failed: " ++ e) := by
    simp [CertRotationWorker.update_k8s_secret, hk8s, hresns, hresnm, happly]
  have hmain : CertRotationWorker.renew_certificate_with_recovery db ci env now =
      (db, [], .error (.certificateRenewalError
        ("K8s update failed: " ++ ("Secret update failed: " ++ e)))) := by
    simp [CertRotationWorker.renew_certificate_with_recovery, h1, hns, hnm, hrid,
      hres, h2]
  refine ⟨hmain, ?_, ?_⟩
  · rw [hmain]; exact hcert
  · simp [CertRotationWorker.rotation_handle_cert, hmain]

/-- C6 witness: the theorem applied at dbCert with a failing cluster
secret update. -/
theorem cert_renewal_rolls_back_on_secret_failure_witness :
    CertRotationWorker.rotation_handle_cert dbCert certInfoFix certEnvSecretFail 7 =
      (dbCert, ["renewal_failed"]) :=
  (cert_renewal_rolls_back_on_secret_failure dbCert certInfoFix certEnvSecretFail 7
    ⟨5, 3, some 7, "webapi.example.com", ["webapi"], [], "OLD-CERT-PEM", "OLD-KEY-PEM",
     1000, 30, true, 0, none⟩ ⟨3, "internal-ca"⟩
    ⟨7, "webapi", 1, 7, "active", "full", some connInfoFix, none, [], false, false,
     false, false, some "team-7", some "webapi", some "StatefulSet", 0, 0, none⟩
    "NEW-CERT-PEM" "NEW-KEY-PEM" 5000 "boom" 7 "team-7" "webapi" "team-7" "webapi"
    (by decide) (by decide) rfl rfl rfl rfl (by decide) rfl rfl rfl rfl).2.2

/-- C7: trigger_backup on a resource passing validation with canBackup
inserts a pending BackupJob, transitions it to running with started_at
set, and on connector success completes it with backup_location equal to
the returned path and backup_size_bytes equal to that file's on-disk
size, returning the job id; on a connector exception it fails the job
with the error recorded and raises ConnectorError. -/
theorem trigger_backup_job_lifecycle
    (db : DB) (rid : Nat) (row : ResourceRow) (rt : ResourceTypeRow)
    (btype : String) (bloc : Option String) (uid : Option Nat)
    (env : ExternalOpsController.ConnectorEnv) (fs : String → Option Nat) (now : Nat)
    (hres : db.findResource rid = some row)
    (hlife : row.lifecycle_mode ∈ ExternalOpsController.SUPPORTED_LIFECYCLE_MODES)
    (hcap : row.can_backup = true)
    (hrt : db.findResourceType row.resource_type_id = some rt)
    (hkey : rt.name ∈ ExternalOpsController.CONNECTOR_MAP_KEYS)
    (hinit : env.init_result = .ok ())
    (hfresh : ∀ j ∈ db.backup_jobs, j.id ≠ db.next_backup_job_id) :
    (∀ path sz, env.trigger_backup_result = .ok path → fs path = some sz →
      (ExternalOpsController.trigger_backup db rid btype bloc uid env fs now).2.1 =
        [(db.next_backup_job_id, "pending"), (db.next_backup_job_id, "running"),
         (db.next_backup_job_id, "completed")] ∧
      (ExternalOpsController.trigger_backup db rid btype bloc uid env fs now).1.backup_jobs =
        db.backup_jobs ++
          [⟨db.next_backup_job_id, rid, btype, "completed", some path, some sz,
            some now, some now, none, uid, now⟩] ∧
      (ExternalOpsController.trigger_backup db rid btype bloc uid env fs now).2.2 =
        .ok db.next_backup_job_id) ∧
    (∀ e, env.trigger_backup_result = .error e →
      (ExternalOpsController.trigger_backup db rid btype bloc uid env fs now).2.1 =
        [(db.next_backup_job_id, "pending"), (db.next_backup_job_id, "running"),
         (db.next_backup_job_id, "failed")] ∧
      (ExternalOpsController.trigger_backup db rid btype bloc uid env fs now).1.backup_jobs =
        db.backup_jobs ++
          [⟨db.next_backup_job_id, rid, btype, "failed", bloc, none,
            some now, some now, some e, uid, now⟩] ∧
      (ExternalOpsController.trigger_backup db rid btype bloc uid env fs now).2.2 =
        .error (.connectorErr ("Backup operation failed: " ++ e))) := by
  constructor
  · intro path sz hok hfs
    refine ⟨?_, ?_, ?_⟩
    · simp [ExternalOpsController.trigger_backup, ExternalOpsController.load_resource,
        hres, ExternalOpsController.validate_lifecycle_mode, hlife, hcap,
        ExternalOpsController.get_resource_type, hrt,
        ExternalOpsController.get_connector_class, hkey,
        ExternalOpsController.init_connector, hinit, hok, hfs]
    · simp only [ExternalOpsController.trigger_backup,
        ExternalOpsController.load_resource, hres,
        ExternalOpsController.validate_lifecycle_mode, hlife, if_true, hcap,
        not_true, ExternalOpsController.get_resource_type, hrt,
        ExternalOpsController.get_connector_class, hkey,
        ExternalOpsController.init_connector, hinit, hok, hfs, if_false,
        Bool.not_true, ite_false, ite_true,
        ExternalOpsController.create_audit_log, DB.updateBackupJobs]
      rw [backup_update_update_append_fresh db.next_backup_job_id
        (fun j => { j with status := "running", started_at := some now })
        (fun j => { j with status := "completed", backup_location := some path, backup_size_bytes := some sz, completed_at := some now })
        ⟨db.next_backup_job_id, rid, btype, "pending", bloc, none, none, none, none, uid, now⟩
        rfl (fun _ => rfl) db.backup_jobs hfresh]
    · simp [ExternalOpsController.trigger_backup, ExternalOpsController.load_resource,
        hres, ExternalOpsController.validate_lifecycle_mode, hlife, hcap,
        ExternalOpsController.get_resource_type, hrt,
        ExternalOpsController.get_connector_class, hkey,
        ExternalOpsController.init_connector, hinit, hok, hfs]
  · intro e herr
    refine ⟨?_, ?_, ?_⟩
    · simp [ExternalOpsController.trigger_backup, ExternalOpsController.load_resource,
        hres, ExternalOpsController.validate_lifecycle_mode, hlife, hcap,
        ExternalOpsController.get_resource_type, hrt,
        ExternalOpsController.get_connector_class, hkey,
        ExternalOpsController.init_connector, hinit, herr]
    · simp only [ExternalOpsController.trigger_backup,
        ExternalOpsController.load_resource, hres,
        ExternalOpsController.validate_lifecycle_mode, hlife, if_true, hcap,
        not_true, ExternalOpsController.get_resource_type, hrt,
        ExternalOpsController.get_connector_class, hkey,
        ExternalOpsController.init_connector, hinit, herr, if_false,
        Bool.not_true, ite_false, ite_true,
        ExternalOpsController.create_audit_log, DB.updateBackupJobs]
      rw [backup_update_update_append_fresh db.next_backup_job_id
        (fun j => { j with status := "running", started_at := some now })
        (fun j => { j with status := "failed", error_message := some e, completed_at := some now })
        ⟨db.next_backup_job_id, rid, btype, "pending", bloc, none, none, none, none, uid, now⟩
        rfl (fun _ => rfl) db.backup_jobs hfresh]
    · simp [ExternalOpsController.trigger_backup, ExternalOpsController.load_resource,
        hres, ExternalOpsController.validate_lifecycle_mode, hlife, hcap,
        ExternalOpsController.get_resource_type, hrt,
        ExternalOpsController.get_connector_class, hkey,
        ExternalOpsController.init_connector, hinit, herr]

/-- C7 witness: the theorem applied at live resource 8 of dbExternal,
whose connector returns /backups/8/backup.sql of size 2048. -/
theorem trigger_backup_job_lifecycle_witness :
    (ExternalOpsController.trigger_backup dbExternal 8 "full" none (some 1)
      connectorEnvOK (fun _ => some 2048) 5).2.2 = .ok 31 :=
  ((trigger_backup_job_lifecycle dbExternal 8
      ⟨8, "pg-live", 1, 2, "active", "partial", some connInfoFix,
       some [("username", "u")], [], true, true, true, false,
       none, none, none, 0, 0, none⟩
      ⟨1, "db-postgresql", "database", true, true, true, true⟩
      "full" none (some 1) connectorEnvOK (fun _ => some 2048) 5
      (by decide) (by decide) rfl (by decide) (by decide) rfl
      (by intro j hj; simp [dbExternal] at hj)).1
    "/backups/8/backup.sql" 2048 rfl rfl).2.2

/-- C9 counterexample: update_resource_config on soft-deleted resource 7
of dbExternal (deleted_at = 99) does not fail with a validation error;
it performs the operation and returns True. -/
theorem update_config_accepts_soft_deleted :
    (ExternalOpsController.update_resource_config dbExternal 7 [("k", "v")]
      (some 1) connectorEnvOK 5).2 = .ok true := by
  decide

/-- C9 amended: every external operation (updateConfig, syncUsers,
triggerBackup, restoreBackup, collectStats, reloadConfiguration) fails
with the resource-validation error when the resource row is absent, but
the deleted_at column is never consulted: a soft-deleted resource that
passes the remaining checks is operated on normally (updateConfig
succeeds on it). -/
theorem external_ops_validate_existence_only :
    (∀ (db : DB) (rid : Nat) (cfg : List (String × String)) (loc : String)
       (btype : String) (bloc : Option String) (uid : Option Nat)
       (env : ExternalOpsController.ConnectorEnv) (fs : String → Option Nat) (now : Nat),
      db.findResource rid = none →
      ((ExternalOpsController.update_resource_config db rid cfg uid env now).2 =
        .error (.invalidResource ("Resource " ++ toString rid ++ " not found")) ∧
       (ExternalOpsController.update_resource_users db rid uid env now).2.2.2 =
        .error (.invalidResource ("Resource " ++ toString rid ++ " not found")) ∧
       (ExternalOpsController.trigger_backup db rid btype bloc uid env fs now).2.2 =
        .error (.invalidResource ("Resource " ++ toString rid ++ " not found")) ∧
       (ExternalOpsController.restore_backup db rid loc uid env now).2.2 =
        .error (.invalidResource ("Resource " ++ toString rid ++ " not found")) ∧
       (ExternalOpsController.collect_resource_stats db rid uid env now).2 =
        .error (.invalidResource ("Resource " ++ toString rid ++ " not found")) ∧
       (ExternalOpsController.reload_configuration db rid uid env now).2 =
        .error (.invalidResource ("Resource " ++ toString rid ++ " not found")))) ∧
    (∀ (db : DB) (rid : Nat) (row : ResourceRow) (t : Nat)
       (cfg : List (String × String)) (uid : Option Nat)
       (env : ExternalOpsController.ConnectorEnv) (now : Nat) (rt : ResourceTypeRow),
      db.findResource rid = some row → row.deleted_at = some t →
      row.lifecycle_mode ∈ ExternalOpsController.SUPPORTED_LIFECYCLE_MODES →
      row.can_modify_config = true →
      db.findResourceType row.resource_type_id = some rt →
      rt.name ∈ ExternalOpsController.CONNECTOR_MAP_KEYS →
      env.init_result = .ok () → env.update_config_result = .ok () →
      (ExternalOpsController.update_resource_config db rid cfg uid env now).2 = .ok true) := by
  constructor
  · intro db rid cfg loc btype bloc uid env fs now h
    refine ⟨?_, ?_, ?_, ?_, ?_, ?_⟩ <;>
      simp [ExternalOpsController.update_resource_config,
            ExternalOpsController.update_resource_users,
            ExternalOpsController.trigger_backup,
            ExternalOpsController.restore_backup,
            ExternalOpsController.collect_resource_stats,
            ExternalOpsController.reload_configuration,
            ExternalOpsController.load_resource, h]
  · intro db rid row t cfg uid env now rt hfind hdel hlife hcap hrt hkey hinit hupd
    simp [ExternalOpsController.update_resource_config,
          ExternalOpsController.load_resource, hfind,
          ExternalOpsController.validate_lifecycle_mode, hlife, hcap,
          ExternalOpsController.get_resource_type, hrt,
          ExternalOpsController.get_connector_class, hkey,
          ExternalOpsController.init_connector, hinit, hupd]

/-- C9 witness: the amended theorem applied to dbExternal (absent id 999,
soft-deleted id 7). -/
theorem external_ops_validate_existence_only_witness :
    (ExternalOpsController.update_resource_config dbExternal 999 [] none
      connectorEnvOK 5).2 =
      .error (.invalidResource ("Resource " ++ toString 999 ++ " not found")) ∧
    (ExternalOpsController.update_resource_config dbExternal 7 [("k", "v")] none
      connectorEnvOK 5).2 = .ok true :=
  ⟨(external_ops_validate_existence_only.1 dbExternal 999 [] "" "full" none none
      connectorEnvOK (fun _ => none) 5 (by decide)).1,
   external_ops_validate_existence_only.2 dbExternal 7
     ⟨7, "pg-ext", 1, 2, "active", "partial", some connInfoFix,
      some [("username", "u")], [("a", "1")], true, true, true, false,
      none, none, none, 0, 0, some 99⟩ 99 [("k", "v")] none connectorEnvOK 5
     ⟨1, "db-postgresql", "database", true, true, true, true⟩
     (by decide) rfl (by decide) rfl (by decide) (by decide) rfl rfl⟩

/-! ## Helper lemmas: the per-user loop of update_resource_users -/

theorem findResourceUser_update_ne (db : DB) (j i : Nat)
    (f : ResourceUserRow → ResourceUserRow) (hf : ∀ r, (f r).id = r.id)
    (hij : i ≠ j) :
    (db.updateResourceUsers j f).findResourceUser i = db.findResourceUser i := by
  rw [findResourceUser_update db j i f hf]
  cases hfind : db.findResourceUser i with
  | none => rfl
  | some u =>
    have hu : u.id = i := by
      have := List.find?_some hfind
      simpa using this
    simp [hu, hij]

theorem sync_one_user_outcomes_shape (env : ExternalOpsController.ConnectorEnv)
    (now : Nat) (acc : DB × List (Nat × Bool) × List ExternalOpsController.ConnCall)
    (r : ResourceUserRow) :
    ∃ b, (ExternalOpsController.sync_one_user env now acc r).2.1 = acc.2.1 ++ [(r.id, b)] ∧
      (r.sync_status ≠ "pending" → b = true) := by
  obtain ⟨db, outcomes, trace⟩ := acc
  unfold ExternalOpsController.sync_one_user
  dsimp only
  split_ifs with h
  · cases hcu : env.create_user_result r.username with
    | error e => exact ⟨false, by simp [hcu], fun hs => absurd h.2 hs⟩
    | ok _ => exact ⟨true, by simp [hcu], fun _ => rfl⟩
  · exact ⟨true, rfl, fun _ => rfl⟩

theorem sync_one_user_trace_shape (env : ExternalOpsController.ConnectorEnv)
    (now : Nat) (acc : DB × List (Nat × Bool) × List ExternalOpsController.ConnCall)
    (r : ResourceUserRow) :
    (ExternalOpsController.sync_one_user env now acc r).2.2 = acc.2.2 ∨
    (ExternalOpsController.sync_one_user env now acc r).2.2 =
      acc.2.2 ++ [ExternalOpsController.ConnCall.create_user r.id r.username] := by
  obtain ⟨db, outcomes, trace⟩ := acc
  unfold ExternalOpsController.sync_one_user
  dsimp only
  split_ifs with h
  · cases hcu : env.create_user_result r.username with
    | error e => exact Or.inr (by simp [hcu])
    | ok _ => exact Or.inr (by simp [hcu])
  · exact Or.inl rfl

theorem sync_one_user_trace_nonpending (env : ExternalOpsController.ConnectorEnv)
    (now : Nat) (acc : DB × List (Nat × Bool) × List ExternalOpsController.ConnCall)
    (r : ResourceUserRow) (h : r.sync_status ≠ "pending") :
    (ExternalOpsController.sync_one_user env now acc r).2.2 = acc.2.2 := by
  obtain ⟨db, outcomes, trace⟩ := acc
  unfold ExternalOpsController.sync_one_user
  dsimp only
  rw [if_neg (by simp [h])]

theorem sync_one_user_find_other (env : ExternalOpsController.ConnectorEnv)
    (now : Nat) (acc : DB × List (Nat × Bool) × List ExternalOpsController.ConnCall)
    (r : ResourceUserRow) (i : Nat) (hi : i ≠ r.id) :
    (ExternalOpsController.sync_one_user env now acc r).1.findResourceUser i =
      acc.1.findResourceUser i := by
  obtain ⟨db, outcomes, trace⟩ := acc
  unfold ExternalOpsController.sync_one_user
  dsimp only
  split_ifs with h
  · cases hcu : env.create_user_result r.username with
    | error e =>
      simp only [hcu]
      rw [findResourceUser_update_ne _ _ _ _ (by intro x; rfl) hi,
        findResourceUser_update_ne _ _ _ _ (by intro x; rfl) hi]
    | ok _ =>
      simp only [hcu]
      rw [findResourceUser_update_ne _ _ _ _ (by intro x; rfl) hi,
        findResourceUser_update_ne _ _ _ _ (by intro x; rfl) hi]
  · rw [findResourceUser_update_ne _ _ _ _ (by intro x; rfl) hi,
      findResourceUser_update_ne _ _ _ _ (by intro x; rfl) hi]

theorem sync_one_user_find_self_nonpending (env : ExternalOpsController.ConnectorEnv)
    (now : Nat) (acc : DB × List (Nat × Bool) × List ExternalOpsController.ConnCall)
    (r : ResourceUserRow) (h : r.sync_status ≠ "pending") :
    (ExternalOpsController.sync_one_user env now acc r).1.findResourceUser r.id =
      (acc.1.findResourceUser r.id).map (fun u =>
        { u with sync_status := "synced", last_synced_at := some now,
                 sync_error := none, updated_at := now }) := by
  obtain ⟨db, outcomes, trace⟩ := acc
  unfold ExternalOpsController.sync_one_user
  dsimp only
  rw [if_neg (by simp [h])]
  rw [findResourceUser_update _ _ _ _ (by intro x; rfl),
    findResourceUser_update _ _ _ _ (by intro x; rfl)]
  cases hfind : db.findResourceUser r.id with
  | none => rfl
  | some u =>
    have hu : u.id = r.id := by
      have := List.find?_some hfind
      simpa using this
    simp [hu]

theorem loop_outcomes_mono (env : ExternalOpsController.ConnectorEnv) (now : Nat) :
    ∀ (rows : List ResourceUserRow)
      (acc : DB × List (Nat × Bool) × List ExternalOpsController.ConnCall)
      (x : Nat × Bool), x ∈ acc.2.1 →
      x ∈ (rows.foldl (ExternalOpsController.sync_one_user env now) acc).2.1 := by
  intro rows
  induction rows with
  | nil => intro acc x hx; simpa using hx
  | cons r rest ih =>
    intro acc x hx
    refine ih _ x ?_
    obtain ⟨b, hb, _⟩ := sync_one_user_outcomes_shape env now acc r
    rw [hb]
    exact List.mem_append_left _ hx

theorem loop_outcome_mem (env : ExternalOpsController.ConnectorEnv) (now : Nat) :
    ∀ (rows : List ResourceUserRow)
      (acc : DB × List (Nat × Bool) × List ExternalOpsController.ConnCall)
      (ru : ResourceUserRow), ru ∈ rows → ru.sync_status ≠ "pending" →
      (ru.id, true) ∈ (rows.foldl (ExternalOpsController.sync_one_user env now) acc).2.1 := by
  intro rows
  induction rows with
  | nil => intro acc ru h; exact absurd h (List.not_mem_nil _)
  | cons r rest ih =>
    intro acc ru hmem hstatus
    rcases List.mem_cons.mp hmem with heq | hrest
    · subst heq
      rw [List.foldl_cons]
      refine loop_outcomes_mono env now rest _ _ ?_
      obtain ⟨b, hb, hbt⟩ := sync_one_user_outcomes_shape env now acc ru
      rw [hb, hbt hstatus]
      exact List.mem_append_right _ (List.mem_singleton.mpr rfl)
    · exact ih _ ru hrest hstatus

theorem loop_trace_no_create (env : ExternalOpsController.ConnectorEnv) (now : Nat)
    (i : Nat) :
    ∀ (rows : List ResourceUserRow)
      (acc : DB × List (Nat × Bool) × List ExternalOpsController.ConnCall),
      (∀ u, ExternalOpsController.ConnCall.create_user i u ∉ acc.2.2) →
      (∀ r ∈ rows, r.id = i → r.sync_status ≠ "pending") →
      ∀ u, ExternalOpsController.ConnCall.create_user i u ∉
        (rows.foldl (ExternalOpsController.sync_one_user env now) acc).2.2 := by
  intro rows
  induction rows with
  | nil => intro acc hacc _ u; simpa using hacc u
  | cons r rest ih =>
    intro acc hacc hrows u
    refine ih _ ?_ (fun x hx => hrows x (List.mem_cons_of_mem _ hx)) u
    intro u2
    by_cases hid : r.id = i
    · rw [sync_one_user_trace_nonpending env now acc r
        (hrows r (List.mem_cons_self _ _) hid)]
      exact hacc u2
    · rcases sync_one_user_trace_shape env now acc r with h | h <;> rw [h]
      · exact hacc u2
      · intro hm
        rcases List.mem_append.mp hm with hm | hm
        · exact hacc u2 hm
        · have h2 := List.mem_singleton.mp hm
          have h3 : i = r.id := by cases h2; rfl
          exact hid h3.symm

theorem loop_find_untouched (env : ExternalOpsController.ConnectorEnv) (now : Nat)
    (i : Nat) :
    ∀ (rows : List ResourceUserRow)
      (acc : DB × List (Nat × Bool) × List ExternalOpsController.ConnCall),
      (∀ r ∈ rows, r.id ≠ i) →
      (rows.foldl (ExternalOpsController.sync_one_user env now) acc).1.findResourceUser i =
        acc.1.findResourceUser i := by
  intro rows
  induction rows with
  | nil => intro acc _; rfl
  | cons r rest ih =>
    intro acc h
    rw [List.foldl_cons, ih _ (fun x hx => h x (List.mem_cons_of_mem _ hx)),
      sync_one_user_find_other env now acc r i
        (fun he => h r (List.mem_cons_self _ _) he.symm)]

theorem loop_find_row (env : ExternalOpsController.ConnectorEnv) (now : Nat) :
    ∀ (rows : List ResourceUserRow)
      (acc : DB × List (Nat × Bool) × List ExternalOpsController.ConnCall)
      (ru : ResourceUserRow), ru ∈ rows → ru.sync_status ≠ "pending" →
      (rows.map (fun u => u.id)).Nodup →
      (rows.foldl (ExternalOpsController.sync_one_user env now) acc).1.findResourceUser ru.id =
        (acc.1.findResourceUser ru.id).map (fun u =>
          { u with sync_status := "synced", last_synced_at := some now,
                   sync_error := none, updated_at := now }) := by
  intro rows
  induction rows with
  | nil => intro acc ru h; exact absurd h (List.not_mem_nil _)
  | cons r rest ih =>
    intro acc ru hmem hstatus hnd
    rw [List.map_cons, List.nodup_cons] at hnd
    rcases List.mem_cons.mp hmem with heq | hrest
    · subst heq
      have hrest_ne : ∀ x ∈ rest, x.id ≠ ru.id := fun x hx he =>
        hnd.1 (he ▸ List.mem_map_of_mem _ hx)
      rw [List.foldl_cons, loop_find_untouched env now ru.id rest _ hrest_ne,
        sync_one_user_find_self_nonpending env now acc ru hstatus]
    · have hne : ru.id ≠ r.id := fun he =>
        hnd.1 (he ▸ List.mem_map_of_mem _ hrest)
      rw [List.foldl_cons, ih _ ru hrest hstatus hnd.2,
        sync_one_user_find_other env now acc r ru.id hne]

/-- Lookup by id of a member of a list with pairwise-distinct ids. -/
theorem find?_of_mem_nodup (l : List ResourceUserRow) (ru : ResourceUserRow)
    (hm : ru ∈ l) (hn : (l.map (fun u => u.id)).Nodup) :
    l.find? (fun x => x.id = ru.id) = some ru := by
  induction l with
  | nil => exact absurd hm (List.not_mem_nil _)
  | cons h rest ih =>
    rw [List.map_cons, List.nodup_cons] at hn
    rcases List.mem_cons.mp hm with heq | hrest
    · subst heq
      simp [List.find?_cons]
    · have hne : h.id ≠ ru.id := fun he =>
        hn.1 (he ▸ List.mem_map_of_mem _ hrest)
      rw [List.find?_cons_of_neg _ (by simp [hne]), ih hrest hn.2]

/-- Rows of a list with pairwise-distinct ids are determined by their
id. -/
theorem eq_of_mem_ids (l : List ResourceUserRow)
    (hn : (l.map (fun u => u.id)).Nodup) (x y : ResourceUserRow)
    (hx : x ∈ l) (hy : y ∈ l) (hxy : x.id = y.id) : x = y := by
  have h1 := find?_of_mem_nodup l x hx hn
  have h2 := find?_of_mem_nodup l y hy hn
  rw [hxy] at h1
  rw [h1] at h2
  exact Option.some.inj h2

/-- C10: in update_resource_users, a resource-user row of the resource
whose sync_status is not pending at iteration time gets no connector
user call, yet is still set to sync_status synced with last_synced_at
set and sync_error cleared, and it counts toward the reported synced
count (a true entry in the per-row outcomes). -/
theorem update_users_marks_nonpending_synced
    (db : DB) (rid : Nat) (row : ResourceRow) (rt : ResourceTypeRow)
    (uid : Option Nat) (env : ExternalOpsController.ConnectorEnv) (now : Nat)
    (ru : ResourceUserRow)
    (hres : db.findResource rid = some row)
    (hlife : row.lifecycle_mode ∈ ExternalOpsController.SUPPORTED_LIFECYCLE_MODES)
    (hcap : row.can_modify_users = true)
    (hrt : db.findResourceType row.resource_type_id = some rt)
    (hkey : rt.name ∈ ExternalOpsController.CONNECTOR_MAP_KEYS)
    (hinit : env.init_result = .ok ())
    (hnodup : (db.resource_users.map (fun u => u.id)).Nodup)
    (hmem : ru ∈ db.resource_users.filter (fun u => u.resource_id = rid))
    (hstatus : ru.sync_status ≠ "pending") :
    (∀ u, ExternalOpsController.ConnCall.create_user ru.id u ∉
      (ExternalOpsController.update_resource_users db rid uid env now).2.2.1) ∧
    (ExternalOpsController.update_resource_users db rid uid env now).1.findResourceUser ru.id =
      some { ru with sync_status := "synced", last_synced_at := some now,
                     sync_error := none, updated_at := now } ∧
    (ru.id, true) ∈ (ExternalOpsController.update_resource_users db rid uid env now).2.1 := by
  have hrows_nd : ((db.resource_users.filter (fun u => u.resource_id = rid)).map
      (fun u => u.id)).Nodup :=
    hnodup.sublist (List.Sublist.map _ (List.filter_sublist _))
  have hrows_nonpending : ∀ r ∈ db.resource_users.filter (fun u => u.resource_id = rid),
      r.id = ru.id → r.sync_status ≠ "pending" := by
    intro r hr hid
    have heq : r = ru := eq_of_mem_ids db.resource_users hnodup r ru
      (List.mem_of_mem_filter hr) (List.mem_of_mem_filter hmem) hid
    rw [heq]; exact hstatus
  refine ⟨?_, ?_, ?_⟩
  · simp only [ExternalOpsController.update_resource_users,
      ExternalOpsController.load_resource, hres,
      ExternalOpsController.validate_lifecycle_mode, hlife, if_true,
      hcap, not_true, ExternalOpsController.get_resource_type, hrt,
      ExternalOpsController.get_connector_class, hkey,
      ExternalOpsController.init_connector, hinit, if_false, Bool.not_true,
      ite_false, ite_true]
    intro u
    exact loop_trace_no_create env now ru.id _ _
      (fun u2 => List.not_mem_nil _) hrows_nonpending u
  · have hdbfind : db.findResourceUser ru.id = some ru :=
      find?_of_mem_nodup db.resource_users ru (List.mem_of_mem_filter hmem) hnodup
    have hfold := loop_find_row env now
      (db.resource_users.filter (fun u => u.resource_id = rid)) (db, [], [])
      ru hmem hstatus hrows_nd
    simp only [ExternalOpsController.update_resource_users,
      ExternalOpsController.load_resource, hres,
      ExternalOpsController.validate_lifecycle_mode, hlife, if_true,
      hcap, not_true, ExternalOpsController.get_resource_type, hrt,
      ExternalOpsController.get_connector_class, hkey,
      ExternalOpsController.init_connector, hinit, if_false, Bool.not_true,
      ite_false, ite_true]
    rw [show (ExternalOpsController.create_audit_log
        ((db.resource_users.filter (fun u => u.resource_id = rid)).foldl
          (ExternalOpsController.sync_one_user env now) (db, [], [])).1
        rid "sync_users" [("status", "completed")] uid (some row.team_id) now).findResourceUser
          ru.id =
      ((db.resource_users.filter (fun u => u.resource_id = rid)).foldl
        (ExternalOpsController.sync_one_user env now) (db, [], [])).1.findResourceUser ru.id
      from rfl]
    rw [hfold]
    show (db.findResourceUser ru.id).map _ = _
    rw [hdbfind]
    rfl
  · simp only [ExternalOpsController.update_resource_users,
      ExternalOpsController.load_resource, hres,
      ExternalOpsController.validate_lifecycle_mode, hlife, if_true,
      hcap, not_true, ExternalOpsController.get_resource_type, hrt,
      ExternalOpsController.get_connector_class, hkey,
      ExternalOpsController.init_connector, hinit, if_false, Bool.not_true,
      ite_false, ite_true]
    exact loop_outcome_mem env now _ _ ru hmem hstatus

/-- C10 witness: the theorem applied at the already-synced row 21 (alice)
of resource 8 in dbExternal. -/
theorem update_users_marks_nonpending_synced_witness :
    (ExternalOpsController.update_resource_users dbExternal 8 (some 1)
      connectorEnvOK 5).1.findResourceUser 21 =
      some ⟨21, 8, "alice", some "pw", ["admin"], "synced", some 5, none, 0, 5, none⟩ ∧
    (21, true) ∈ (ExternalOpsController.update_resource_users dbExternal 8 (some 1)
      connectorEnvOK 5).2.1 :=
  ⟨(update_users_marks_nonpending_synced dbExternal 8
      ⟨8, "pg-live", 1, 2, "active", "partial", some connInfoFix,
       some [("username", "u")], [], true, true, true, false,
       none, none, none, 0, 0, none⟩
      ⟨1, "db-postgresql", "database", true, true, true, true⟩
      (some 1) connectorEnvOK 5
      ⟨21, 8, "alice", some "pw", ["admin"], "synced", none, none, 0, 0, none⟩
      (by decide) (by decide) rfl (by decide) (by decide) rfl (by decide)
      (by decide) (by decide)).2.1,
   (update_users_marks_nonpending_synced dbExternal 8
      ⟨8, "pg-live", 1, 2, "active", "partial", some connInfoFix,
       some [("username", "u")], [], true, true, true, false,
       none, none, none, 0, 0, none⟩
      ⟨1, "db-postgresql", "database", true, true, true, true⟩
      (some 1) connectorEnvOK 5
      ⟨21, 8, "alice", some "pw", ["admin"], "synced", none, none, 0, 0, none⟩
      (by decide) (by decide) rfl (by decide) (by decide) rfl (by decide)
      (by decide) (by decide)).2.2⟩

/-- Updating resource_users leaves resource lookup unchanged. -/
theorem findResource_updateUsers (db : DB) (i j : Nat)
    (f : ResourceUserRow → ResourceUserRow) :
    (db.updateResourceUsers i f).findResource j = db.findResource j := rfl

/-- Updating resource_users leaves resource-type lookup unchanged. -/
theorem findResourceType_updateUsers (db : DB) (i j : Nat)
    (f : ResourceUserRow → ResourceUserRow) :
    (db.updateResourceUsers i f).findResourceType j = db.findResourceType j := rfl

/-- The per-row outcome list of the sync cycle records exactly the ids of
the selected rows, in order. -/
theorem syncCycle_ids (env : UserSyncWorker.UserSyncEnv) (now : Nat) :
    ∀ (rows : List ResourceUserRow)
      (acc : DB × List (Nat × List UserSyncWorker.UserConnCall × UserSyncWorker.SyncOutcome)),
      ((rows.foldl (fun acc row =>
          let step := UserSyncWorker.sync_user acc.1 row.id env now
          (step.1, acc.2 ++ [(row.id, step.2.1, step.2.2)])) acc).2).map (fun x => x.1) =
        acc.2.map (fun x => x.1) ++ rows.map (fun r => r.id) := by
  intro rows
  induction rows with
  | nil => intro acc; simp
  | cons r rest ih =>
    intro acc
    rw [List.foldl_cons, ih]
    simp

/-- C8: a user-sync cycle selects at most batch-size rows, all with
sync_status pending or error, ordered by created_at ascending, and
processes exactly the selected rows; for a row whose resource, type and
connector resolve, sync_user probes user_exists and calls update_user
when the user exists and create_user otherwise, then marks the row
synced with last_synced_at set and sync_error cleared; on any connector
exception the row is marked error with the classified user-facing
message. -/
theorem user_sync_selects_and_applies_connector
    (db : DB) (batch : Nat) (env : UserSyncWorker.UserSyncEnv) (now : Nat)
    (ruid : Nat) (ru : ResourceUserRow) (res : ResourceRow) (rt : ResourceTypeRow)
    (hfind : db.findResourceUser ruid = some ru)
    (hres : db.findResource ru.resource_id = some res)
    (hrt : db.findResourceType res.resource_type_id = some rt)
    (hconn : UserSyncWorker.get_connector env rt.name res.connection_info
      res.credentials = true) :
    (UserSyncWorker.select_pending_users db batch).length ≤ batch ∧
    (∀ u ∈ UserSyncWorker.select_pending_users db batch,
      u.sync_status = "pending" ∨ u.sync_status = "error") ∧
    (UserSyncWorker.select_pending_users db batch).Pairwise
      (fun a b => a.created_at ≤ b.created_at) ∧
    (UserSyncWorker.sync_pending_users db batch env now).2.map (fun x => x.1) =
      (UserSyncWorker.select_pending_users db batch).map (fun r => r.id) ∧
    (env.user_exists_result ru.username = .ok true →
     env.update_user_result ru.username = .ok () →
      (UserSyncWorker.sync_user db ruid env now).2 =
        ([UserSyncWorker.UserConnCall.user_exists ru.username,
          UserSyncWorker.UserConnCall.update_user ru.username],
         UserSyncWorker.SyncOutcome.synced) ∧
      (UserSyncWorker.sync_user db ruid env now).1.findResourceUser ruid =
        some { ru with sync_status := "synced", last_synced_at := some now,
                       sync_error := none, updated_at := now }) ∧
    (env.user_exists_result ru.username = .ok false →
     env.create_user_result ru.username = .ok () →
      (UserSyncWorker.sync_user db ruid env now).2 =
        ([UserSyncWorker.UserConnCall.user_exists ru.username,
          UserSyncWorker.UserConnCall.create_user ru.username],
         UserSyncWorker.SyncOutcome.synced) ∧
      (UserSyncWorker.sync_user db ruid env now).1.findResourceUser ruid =
        some { ru with sync_status := "synced", last_synced_at := some now,
                       sync_error := none, updated_at := now }) ∧
    (∀ e : UserSyncWorker.PyExc,
      (env.user_exists_result ru.username = .error e ∨
       (env.user_exists_result ru.username = .ok true ∧
        env.update_user_result ru.username = .error e) ∨
       (env.user_exists_result ru.username = .ok false ∧
        env.create_user_result ru.username = .error e)) →
      (UserSyncWorker.sync_user db ruid env now).2.2 =
        UserSyncWorker.SyncOutcome.syncFailed (UserSyncWorker.classify_sync_error e) ∧
      (UserSyncWorker.sync_user db ruid env now).1.findResourceUser ruid =
        some { ru with sync_status := "error",
                       sync_error := some (UserSyncWorker.classify_sync_error e),
                       updated_at := now }) := by
  have hfind2 : db.resource_users.find? (fun r => r.id = ruid) = some ru := hfind
  have hid : ru.id = ruid := by simpa using List.find?_some hfind2
  refine ⟨?_, ?_, ?_, ?_, ?_, ?_, ?_⟩
  · simp only [UserSyncWorker.select_pending_users, List.length_take]
    exact min_le_left _ _
  · intro u hu
    have h1 := List.mem_of_mem_take hu
    have h2 := (List.perm_insertionSort _ _).mem_iff.mp h1
    have h3 := (List.mem_filter.mp h2).2
    simpa using h3
  · haveI : IsTotal ResourceUserRow (fun a b => a.created_at ≤ b.created_at) :=
      ⟨fun a b => Nat.le_total _ _⟩
    haveI : IsTrans ResourceUserRow (fun a b => a.created_at ≤ b.created_at) :=
      ⟨fun a b c hab hbc => Nat.le_trans hab hbc⟩
    exact List.Pairwise.sublist (List.take_sublist _ _) (List.sorted_insertionSort _ _)
  · unfold UserSyncWorker.sync_pending_users
    rw [syncCycle_ids env now _ _]
    simp
  · intro h1 h2
    refine ⟨?_, ?_⟩ <;>
      simp only [UserSyncWorker.sync_user, hfind, findResource_updateUsers, hres,
        findResourceType_updateUsers, hrt, hconn, h1, h2, not_true, Bool.not_true,
        ite_false, if_false, eq_self_iff_true]
    rw [findResourceUser_update _ _ _ _ (by intro x; rfl),
      findResourceUser_update _ _ _ _ (by intro x; rfl), hfind]
    simp [hid]
  · intro h1 h2
    refine ⟨?_, ?_⟩ <;>
      simp only [UserSyncWorker.sync_user, hfind, findResource_updateUsers, hres,
        findResourceType_updateUsers, hrt, hconn, h1, h2, not_true, Bool.not_true,
        ite_false, if_false, eq_self_iff_true]
    rw [findResourceUser_update _ _ _ _ (by intro x; rfl),
      findResourceUser_update _ _ _ _ (by intro x; rfl), hfind]
    simp [hid]
  · intro e he
    rcases he with h1 | ⟨h1, h2⟩ | ⟨h1, h2⟩ <;>
      refine ⟨?_, ?_⟩ <;>
        first
          | (simp only [UserSyncWorker.sync_user, hfind, findResource_updateUsers, hres,
              findResourceType_updateUsers, hrt, hconn, h1, not_true, Bool.not_true,
              ite_false, if_false, eq_self_iff_true]
             try simp only [h2]
             try (rw [findResourceUser_update _ _ _ _ (by intro x; rfl),
                   findResourceUser_update _ _ _ _ (by intro x; rfl), hfind]
                  simp [hid]))

/-- C8 witness: the theorem applied to pending row 21 (alice) of
dbUserSync, where the connector reports the user absent and create
succeeds. -/
theorem user_sync_selects_and_applies_connector_witness :
    (UserSyncWorker.sync_user dbUserSync 21 userSyncEnvOK 7).2 =
      ([UserSyncWorker.UserConnCall.user_exists "alice",
        UserSyncWorker.UserConnCall.create_user "alice"],
       UserSyncWorker.SyncOutcome.synced) ∧
    (UserSyncWorker.select_pending_users dbUserSync 2).length ≤ 2 :=
  ⟨((user_sync_selects_and_applies_connector dbUserSync 2 userSyncEnvOK 7 21
      ⟨21, 8, "alice", some "pw", ["admin"], "pending", none, none, 5, 5, none⟩
      ⟨8, "maria-live", 1, 2, "active", "partial", some connInfoFix,
        some [("username", "u")], [], true, true, true, false,
        none, none, none, 0, 0, none⟩
      ⟨1, "db-mariadb", "database", true, true, true, true⟩
      (by decide) (by decide) (by decide) (by decide)).2.2.2.2.2.1 rfl rfl).1,
   (user_sync_selects_and_applies_connector dbUserSync 2 userSyncEnvOK 7 21
      ⟨21, 8, "alice", some "pw", ["admin"], "pending", none, none, 5, 5, none⟩
      ⟨8, "maria-live", 1, 2, "active", "partial", some connInfoFix,
        some [("username", "u")], [], true, true, true, false,
        none, none, none, 0, 0, none⟩
      ⟨1, "db-mariadb", "database", true, true, true, true⟩
      (by decide) (by decide) (by decide) (by decide)).1⟩

/-- C5 witness: the theorem applied at adding a cpu_percent 90
observation to the empty map. -/
theorem risk_level_monotone_witness :
    differOnlyAt Obs.cpu Metrics.empty
      { Metrics.empty with cpu_percent := some (.intVal 90) } ∧
    (riskRank (ExternalOpsController.calculate_risk_level Metrics.empty "t").1 ≤
      riskRank (ExternalOpsController.calculate_risk_level
        { Metrics.empty with cpu_percent := some (.intVal 90) } "t").1 ∧
     riskRank (StatsCollector.calculate_risk_level Metrics.empty).1 ≤
      riskRank (StatsCollector.calculate_risk_level
        { Metrics.empty with cpu_percent := some (.intVal 90) }).1) :=
  ⟨by decide,
   risk_level_monotone Obs.cpu Metrics.empty
     { Metrics.empty with cpu_percent := some (.intVal 90) } "t"
     (by decide) (by decide) (by decide)⟩

end Nest
